import Mathlib

/-!
be-heybook: the product service over a relational state.

A shallow embedding of `src/services/productService.js`.  The relational
tables are lists of rows, a service call is a function from the state
before the call to the state after it and the outcome, and a managed
transaction (`sequelize.transaction(async (t) => ...)`) commits the writes
of its callback when the callback returns and discards them when it throws.
-/

namespace HeyBook

/-! ## Rows of the tables -/

/-- Row of `Product`.  `createdAt` and `updatedAt` are the time stamps the
ORM maintains (both are selected by name in every read of the service). -/
structure Product where
  id : Nat
  categoryId : Nat
  name : String
  price : Int
  discount : Int
  stock : Int
  description : String
  coverImageUrl : String
  dimension : String
  type : String
  createdAt : Nat
  updatedAt : Nat
deriving DecidableEq, Repr

/-- Row of `BookDetail`, referring to its product through `productId`. -/
structure BookDetail where
  productId : Nat
  bookGenreId : Nat
  author : String
  translator : String
  language : String
  publisher : String
  publishYear : Nat
  pageCount : Nat
deriving DecidableEq, Repr

/-- Row of `StationeryDetail`, referring to its product through `productId`. -/
structure StationeryDetail where
  productId : Nat
  brand : String
  placeProduction : String
  color : String
  material : String
deriving DecidableEq, Repr

/-- Row of `ProductImage`.  The URL is nullable: `create` can store an image
whose `imageUrl` was not given. -/
structure ProductImage where
  id : Nat
  productId : Nat
  imageUrl : Option String
deriving DecidableEq, Repr

/-- Row of `Category`. -/
structure Category where
  id : Nat
  name : String
deriving DecidableEq, Repr

/-- Row of `Review`. -/
structure Review where
  id : Nat
  productId : Nat
  rating : Int
deriving DecidableEq, Repr

/-- Row of `Order`; `status` is nullable, as any SQL column may be. -/
structure Order where
  id : Nat
  status : Option String
deriving DecidableEq, Repr

/-- Row of `OrderItem`. -/
structure OrderItem where
  id : Nat
  orderId : Nat
  productId : Nat
  quantity : Int
deriving DecidableEq, Repr

/-- The database: one list of rows per table, and the auto-increment counters
of the two tables the service inserts into with a generated key. -/
structure Db where
  products : List Product
  bookDetails : List BookDetail
  stationeryDetails : List StationeryDetail
  productImages : List ProductImage
  categories : List Category
  reviews : List Review
  orders : List Order
  orderItems : List OrderItem
  nextProductId : Nat
  nextImageId : Nat
deriving DecidableEq, Repr

/-- A file received from the multipart upload middleware. -/
structure UploadFile where
  buffer : String
  originalname : String
deriving DecidableEq, Repr

/-- What a service call can change: the database and the image store, the
latter recorded as the list of uploads made so far (folder and file). -/
structure World where
  db : Db
  uploads : List (String × UploadFile)
deriving DecidableEq, Repr

/-! ## Request bodies -/

/-- The object `reqBody.bookDetail`. -/
structure BookDetailData where
  bookGenreId : Nat
  author : String
  translator : String
  language : String
  publisher : String
  publishYear : Nat
  pageCount : Nat
deriving DecidableEq, Repr

/-- The object `reqBody.stationeryDetail`. -/
structure StationeryDetailData where
  brand : String
  placeProduction : String
  color : String
  material : String
deriving DecidableEq, Repr

/-- An element of `reqBody.productImages`: a plain string, or an object whose
`imageUrl` property may be missing. -/
inductive ImageRef where
  | str (s : String)
  | obj (imageUrl : Option String)
deriving DecidableEq, Repr

/-- The request body of `create` and `update`.  `bookDetail` and
`stationeryDetail` are `none` when the property is undefined, and
`productImages` is the array given or `none` when the property is undefined. -/
structure ReqBody where
  categoryId : Nat
  name : String
  price : Int
  discount : Int
  stock : Int
  description : String
  dimension : String
  type : String
  bookDetail : Option BookDetailData
  stationeryDetail : Option StationeryDetailData
  productImages : Option (List ImageRef)
deriving DecidableEq, Repr

/-! ## Errors and transactions -/

/-- What a service call throws: an `ApiError` with its status code and
message, the `TypeError` of reading a property of `undefined`, or an error
raised by the database for a statement. -/
inductive Err where
  | api (statusCode : Nat) (message : String)
  | typeError
  | dbError
deriving DecidableEq, Repr

/-- One awaited statement running inside a transaction: it throws when the
database rejects it (`fails`), and applies its effect otherwise. -/
def stmt (fails : Bool) (effect : Db → Db) (db : Db) : Except Err Db :=
  if fails then Except.error Err.dbError else Except.ok (effect db)

/-- Reading a property of `reqBody.bookDetail` / `reqBody.stationeryDetail`:
a `TypeError` when the object is undefined. -/
def propsOf {α : Type} (o : Option α) : Except Err α :=
  match o with
  | some a => Except.ok a
  | none => Except.error Err.typeError

/-- The managed transaction `sequelize.transaction(async (t) => body)`: the
callback works on the state at the start; its writes are committed when it
returns and rolled back when it throws, and the error is thrown on. -/
def transaction {α : Type} (body : Db → Except Err (α × Db)) (w : World) :
    World × Except Err α :=
  match body w.db with
  | Except.ok (a, db') => ({ w with db := db' }, Except.ok a)
  | Except.error e => (w, Except.error e)

/-! ## Queries and statements on the tables -/

/-- The query `Product.findByPk(productId)`. -/
def findByPk (db : Db) (productId : Nat) : Option Product :=
  db.products.find? (fun p => p.id == productId)

/-- The statement `Product.update(values, where id = productId)` of `update`,
which also moves `updatedAt` to the time of the call. -/
def productUpdate (productId now : Nat) (reqBody : ReqBody) (coverImageUrl : String)
    (db : Db) : Db :=
  { db with products := db.products.map (fun p =>
      if p.id == productId then
        { p with
          categoryId := reqBody.categoryId
          name := reqBody.name
          price := reqBody.price
          discount := reqBody.discount
          stock := reqBody.stock
          description := reqBody.description
          coverImageUrl := coverImageUrl
          dimension := reqBody.dimension
          type := reqBody.type
          updatedAt := now }
      else p) }

/-- The row `BookDetail.create` inserts for a product. -/
def bookDetailRow (productId : Nat) (b : BookDetailData) : BookDetail :=
  { productId := productId
    bookGenreId := b.bookGenreId
    author := b.author
    translator := b.translator
    language := b.language
    publisher := b.publisher
    publishYear := b.publishYear
    pageCount := b.pageCount }

/-- The row `StationeryDetail.create` inserts for a product. -/
def stationeryDetailRow (productId : Nat) (s : StationeryDetailData) : StationeryDetail :=
  { productId := productId
    brand := s.brand
    placeProduction := s.placeProduction
    color := s.color
    material := s.material }

/-- The statement `BookDetail.update(values, where productId)`. -/
def bookDetailUpdate (productId : Nat) (b : BookDetailData) (db : Db) : Db :=
  { db with bookDetails := db.bookDetails.map (fun d =>
      if d.productId == productId then bookDetailRow productId b else d) }

/-- The statement `StationeryDetail.update(values, where productId)`. -/
def stationeryDetailUpdate (productId : Nat) (s : StationeryDetailData) (db : Db) : Db :=
  { db with stationeryDetails := db.stationeryDetails.map (fun d =>
      if d.productId == productId then stationeryDetailRow productId s else d) }

/-- The statement `BookDetail.create(row)`. -/
def bookDetailCreate (productId : Nat) (b : BookDetailData) (db : Db) : Db :=
  { db with bookDetails := db.bookDetails ++ [bookDetailRow productId b] }

/-- The statement `StationeryDetail.create(row)`. -/
def stationeryDetailCreate (productId : Nat) (s : StationeryDetailData) (db : Db) : Db :=
  { db with stationeryDetails := db.stationeryDetails ++ [stationeryDetailRow productId s] }

/-- The statement `BookDetail.destroy(where productId)`. -/
def bookDetailDestroy (productId : Nat) (db : Db) : Db :=
  { db with bookDetails := db.bookDetails.filter (fun d => !(d.productId == productId)) }

/-- The statement `StationeryDetail.destroy(where productId)`. -/
def stationeryDetailDestroy (productId : Nat) (db : Db) : Db :=
  { db with stationeryDetails :=
      db.stationeryDetails.filter (fun d => !(d.productId == productId)) }

/-- The statement `ProductImage.destroy(where productId)`. -/
def productImageDestroy (productId : Nat) (db : Db) : Db :=
  { db with productImages := db.productImages.filter (fun i => !(i.productId == productId)) }

/-- The rows a bulk insert of image URLs adds for a product: each gets the next
generated key. -/
def imageRows (productId : Nat) : Nat → List (Option String) → List ProductImage
  | _, [] => []
  | k, u :: us => { id := k, productId := productId, imageUrl := u }
      :: imageRows productId (k + 1) us

/-- The statement `ProductImage.bulkCreate(rows)`. -/
def productImageBulkCreate (productId : Nat) (urls : List (Option String)) (db : Db) : Db :=
  { db with
    productImages := db.productImages ++ imageRows productId db.nextImageId urls
    nextImageId := db.nextImageId + urls.length }

/-- The statement `Product.destroy(where id = productId)`. -/
def productDestroy (productId : Nat) (db : Db) : Db :=
  { db with products := db.products.filter (fun p => !(p.id == productId)) }

/-- The number of rows `Product.destroy(where id = productId)` deletes. -/
def productDestroyCount (productId : Nat) (db : Db) : Nat :=
  (db.products.filter (fun p => p.id == productId)).length

/-! ## The image store -/

/-- The call `UploadImageProvider.uploadImage(file.buffer, folder,
file.originalname)`: the file is stored, and `cdn folder file` is the
`fileUrl` of the result (the provider is outside the repository, so the URL it
gives is a parameter). -/
def uploadImage (cdn : String → UploadFile → String) (folder : String) (file : UploadFile)
    (w : World) : String × World :=
  (cdn folder file, { w with uploads := w.uploads ++ [(folder, file)] })

/-- The loop `for (const file of productImageFiles)` uploading each file to the
folder `productImages` and collecting the URLs in order. -/
def uploadEach (cdn : String → UploadFile → String) :
    List UploadFile → World → List String × World
  | [], w => ([], w)
  | file :: files, w =>
    let r := uploadImage cdn "productImages" file w
    let rs := uploadEach cdn files r.2
    (r.1 :: rs.1, rs.2)

/-- The block "Upload product images" of `create` and `update`: nothing is
uploaded when `productImageFiles` is undefined or empty. -/
def uploadProductImages (cdn : String → UploadFile → String)
    (productImageFiles : Option (List UploadFile)) (w : World) : List String × World :=
  match productImageFiles with
  | some (file :: files) => uploadEach cdn (file :: files) w
  | _ => ([], w)

/-! ## Results of the calls -/

/-- A product together with the associations loaded with it. -/
structure ProductView where
  product : Product
  productImages : List ProductImage
  bookDetail : Option BookDetail
  stationeryDetail : Option StationeryDetail
deriving DecidableEq, Repr

/-- The query `Product.findByPk(productId, include productImages, bookDetail,
stationeryDetail)` that ends both branches of `update`. -/
def findByPkFull (db : Db) (productId : Nat) : Option ProductView :=
  (findByPk db productId).map (fun p =>
    { product := p
      productImages := db.productImages.filter (fun i => i.productId == productId)
      bookDetail := db.bookDetails.find? (fun d => d.productId == productId)
      stationeryDetail := db.stationeryDetails.find? (fun d => d.productId == productId) })

/-- A query awaited inside a transaction: it throws when the database rejects
it, and leaves the state as it is. -/
def query {α : Type} (fails : Bool) (read : Db → α) (db : Db) : Except Err (α × Db) :=
  if fails then Except.error Err.dbError else Except.ok (read db, db)

/-! ## The language runtime and the text operations of the database -/

/-- The operations of the language the service relies on, on strings:
`Number(s)` and `parseFloat(s)`, with `none` for NaN, and `s.toLowerCase()`.
They belong to the runtime, not to the repository, and are parameters. -/
structure JsRuntime where
  number : String → Option ℚ
  parseFloat : String → Option ℚ
  toLowerCase : String → String

/-- The text operations of the database, which depend on the collation of the
columns and are parameters: the function `LOWER`, the operator `=` on strings,
and the comparison the operator `LIKE` makes between one character of a value
and one character of a pattern. -/
structure SqlText where
  lower : String → String
  equal : String → String → Bool
  sameChar : Char → Char → Bool

/-! ## create -/

/-- The query of `create` for a stored product with the requested name:
`LOWER(name) = reqBody.name.toLowerCase()`, the left side lower-cased and the
two sides compared by the database, the right side lower-cased by the
language. -/
def existProduct (js : JsRuntime) (sql : SqlText) (db : Db) (name : String) : Option Product :=
  db.products.find? (fun p => sql.equal (sql.lower p.name) (js.toLowerCase name))

/-- The expression `i.imageUrl` of `create`, for an element of
`reqBody.productImages`: undefined on a plain string. -/
def ImageRef.imageUrl : ImageRef → Option String
  | ImageRef.str _ => none
  | ImageRef.obj u => u

/-- The product row `Product.create` inserts, under the next generated key. -/
def productRow (id now : Nat) (reqBody : ReqBody) (coverImageUrl : String) : Product :=
  { id := id
    categoryId := reqBody.categoryId
    name := reqBody.name
    price := reqBody.price
    discount := reqBody.discount
    stock := reqBody.stock
    description := reqBody.description
    coverImageUrl := coverImageUrl
    dimension := reqBody.dimension
    type := reqBody.type
    createdAt := now
    updatedAt := now }

/-- The insertion of the product row by `Product.create`. -/
def productCreate (now : Nat) (reqBody : ReqBody) (coverImageUrl : String) (db : Db) : Db :=
  { db with
    products := db.products ++ [productRow db.nextProductId now reqBody coverImageUrl]
    nextProductId := db.nextProductId + 1 }

/-- The property `productImages` of the `data` of `create`: the uploaded files,
or else the `imageUrl` of each element of `reqBody.productImages`. -/
def dataProductImages (uploadedProductImages : List String) (reqBody : ReqBody) :
    List (Option String) :=
  if uploadedProductImages.length > 0 then uploadedProductImages.map some
  else (reqBody.productImages.getD []).map ImageRef.imageUrl

/-- The callback of the transaction of `create`: it builds `data` and the
`include` list, then `Product.create(data, include)` inserts the product, its
images (when there are any) and the detail objects that `data` holds.
`faults k` tells whether the database rejects the `k`-th insertion. -/
def createTx (now : Nat) (faults : Nat → Bool) (reqBody : ReqBody) (coverImageUrl : String)
    (uploadedProductImages : List String) (db : Db) : Except Err (ProductView × Db) := do
  let productImages := dataProductImages uploadedProductImages reqBody
  let bookDetail ←
    (if reqBody.type = "BOOK" then (propsOf reqBody.bookDetail).map some
     else Except.ok none)
  let stationeryDetail ←
    (if reqBody.type = "STATIONERY" then (propsOf reqBody.stationeryDetail).map some
     else Except.ok none)
  let productId := db.nextProductId
  let db1 ← stmt (faults 0) (productCreate now reqBody coverImageUrl) db
  let imageId := db1.nextImageId
  let db2 ←
    (if productImages.isEmpty then Except.ok db1
     else stmt (faults 1) (productImageBulkCreate productId productImages) db1)
  let db3 ←
    (match bookDetail with
     | some b => stmt (faults 2) (bookDetailCreate productId b) db2
     | none => Except.ok db2)
  let db4 ←
    (match stationeryDetail with
     | some s => stmt (faults 3) (stationeryDetailCreate productId s) db3
     | none => Except.ok db3)
  return ({ product := productRow productId now reqBody coverImageUrl
            productImages := imageRows productId imageId productImages
            bookDetail := bookDetail.map (bookDetailRow productId)
            stationeryDetail := stationeryDetail.map (stationeryDetailRow productId) }, db4)

/-- The function `productService.create`. -/
def create (js : JsRuntime) (sql : SqlText) (cdn : String → UploadFile → String) (now : Nat)
    (faults : Nat → Bool) (reqBody : ReqBody) (coverImageFile : Option UploadFile)
    (productImageFiles : Option (List UploadFile)) (w : World) :
    World × Except Err ProductView :=
  match existProduct js sql w.db reqBody.name with
  | some _ => (w, Except.error (Err.api 409 "Sản phẩm đã tồn tại!"))
  | none =>
    match coverImageFile with
    | none => (w, Except.error (Err.api 422 "Cover image is required"))
    | some cover =>
      let uploadResult := uploadImage cdn "coverImages" cover w
      let coverImageUrl := uploadResult.1
      let uploaded := uploadProductImages cdn productImageFiles uploadResult.2
      transaction (createTx now faults reqBody coverImageUrl uploaded.1) uploaded.2

/-! ## update -/

/-- The expression `typeof img === 'string' ? img : img.imageUrl` of `update`. -/
def ImageRef.urlOf : ImageRef → Option String
  | ImageRef.str s => some s
  | ImageRef.obj u => u

/-- The URLs `update` takes from `reqBody.productImages`: those that are truthy,
that is defined and not the empty string. -/
def bodyImageUrls (productImages : Option (List ImageRef)) : List String :=
  (productImages.getD []).filterMap (fun img =>
    match img.urlOf with
    | some u => if u = "" then none else some u
    | none => none)

/-- The list `allProductImages` of `update`: the uploaded files first, then the
URLs of the request body. -/
def allProductImages (uploadedProductImages : List String) (reqBody : ReqBody) : List String :=
  uploadedProductImages ++ bodyImageUrls reqBody.productImages

/-- The guard of the image step of `update`: `allProductImages.length > 0 ||
uploadedProductImages.length > 0 || (reqBody.productImages &&
Array.isArray(reqBody.productImages))`. -/
def replacesImages (uploadedProductImages : List String) (reqBody : ReqBody) : Bool :=
  decide ((allProductImages uploadedProductImages reqBody).length > 0)
    || decide (uploadedProductImages.length > 0)
    || reqBody.productImages.isSome

/-- The image step of `update` (the same in both branches): under the guard the
images of the product are deleted, and the merged list is inserted when it is
not empty.  `k` and `k + 1` number the two statements. -/
def productImagesStep (faults : Nat → Bool) (k : Nat) (productId : Nat) (reqBody : ReqBody)
    (uploadedProductImages : List String) (db : Db) : Except Err Db :=
  if replacesImages uploadedProductImages reqBody then
    stmt (faults k) (productImageDestroy productId) db >>= fun db1 =>
      if (allProductImages uploadedProductImages reqBody).length > 0 then
        stmt (faults (k + 1))
          (productImageBulkCreate productId
            ((allProductImages uploadedProductImages reqBody).map some)) db1
      else Except.ok db1
  else Except.ok db

/-- The callback of the transaction of `update` when `reqBody.type` is the
stored type. -/
def updateSameTypeTx (now : Nat) (faults : Nat → Bool) (productId : Nat) (reqBody : ReqBody)
    (coverImageUrl : String) (uploadedProductImages : List String) (db : Db) :
    Except Err (Option ProductView × Db) := do
  let db1 ← stmt (faults 0) (productUpdate productId now reqBody coverImageUrl) db
  let db2 ←
    (if reqBody.type = "BOOK" then
       propsOf reqBody.bookDetail >>= fun b =>
         stmt (faults 1) (bookDetailUpdate productId b) db1
     else
       propsOf reqBody.stationeryDetail >>= fun s =>
         stmt (faults 1) (stationeryDetailUpdate productId s) db1)
  let db3 ← productImagesStep faults 2 productId reqBody uploadedProductImages db2
  query (faults 4) (fun d => findByPkFull d productId) db3

/-- The callback of the transaction of `update` when `reqBody.type` differs from
the stored type. -/
def updateTypeChangeTx (now : Nat) (faults : Nat → Bool) (oldProduct : Product)
    (productId : Nat) (reqBody : ReqBody) (coverImageUrl : String)
    (uploadedProductImages : List String) (db : Db) :
    Except Err (Option ProductView × Db) := do
  let db1 ←
    (if oldProduct.type = "BOOK" then stmt (faults 0) (bookDetailDestroy productId) db
     else if oldProduct.type = "STATIONERY" then
       stmt (faults 0) (stationeryDetailDestroy productId) db
     else Except.ok db)
  let db2 ← stmt (faults 1) (productUpdate productId now reqBody coverImageUrl) db1
  let db3 ←
    (if reqBody.type = "BOOK" then
       propsOf reqBody.bookDetail >>= fun b =>
         stmt (faults 2) (bookDetailCreate productId b) db2
     else if reqBody.type = "STATIONERY" then
       propsOf reqBody.stationeryDetail >>= fun s =>
         stmt (faults 2) (stationeryDetailCreate productId s) db2
     else Except.ok db2)
  let db4 ← productImagesStep faults 3 productId reqBody uploadedProductImages db3
  query (faults 5) (fun d => findByPkFull d productId) db4

/-- The function `productService.update`.  Its first guard, `oldProduct ===
reqBody`, compares a stored row with the request body by identity; it holds for
no body and throws the same error as the second, so the two are one case. -/
def update (cdn : String → UploadFile → String) (now : Nat) (faults : Nat → Bool)
    (productId : Nat) (reqBody : ReqBody) (coverImageFile : Option UploadFile)
    (productImageFiles : Option (List UploadFile)) (w : World) :
    World × Except Err (Option ProductView) :=
  match findByPk w.db productId with
  | none => (w, Except.error (Err.api 404 "Không tìm thấy sản phẩm!"))
  | some oldProduct =>
    let cover : String × World :=
      match coverImageFile with
      | some file => uploadImage cdn "coverImages" file w
      | none => (oldProduct.coverImageUrl, w)
    let coverImageUrl := cover.1
    let uploaded := uploadProductImages cdn productImageFiles cover.2
    if reqBody.type = oldProduct.type then
      transaction
        (updateSameTypeTx now faults productId reqBody coverImageUrl uploaded.1) uploaded.2
    else
      transaction
        (updateTypeChangeTx now faults oldProduct productId reqBody coverImageUrl uploaded.1)
        uploaded.2

/-! ## deleteById -/

/-- The callback of the transaction of `deleteById`. -/
def deleteByIdTx (faults : Nat → Bool) (productId : Nat) (db : Db) :
    Except Err (Unit × Db) := do
  let db1 ← stmt (faults 0) (productImageDestroy productId) db
  let db2 ← stmt (faults 1) (bookDetailDestroy productId) db1
  let db3 ← stmt (faults 2) (stationeryDetailDestroy productId) db2
  let count := productDestroyCount productId db3
  let db4 ← stmt (faults 3) (productDestroy productId) db3
  (if count = 0 then Except.error (Err.api 500 "Xóa sản phẩm thất bại!")
   else Except.ok ((), db4))

/-- The function `productService.deleteById`. -/
def deleteById (faults : Nat → Bool) (productId : Nat) (w : World) :
    World × Except Err Product :=
  match findByPk w.db productId with
  | none => (w, Except.error (Err.api 404 "Không tìm thấy sản phẩm!"))
  | some product =>
    let r := transaction (deleteByIdTx faults productId) w
    match r.2 with
    | Except.ok _ => (r.1, Except.ok product)
    | Except.error e => (r.1, Except.error e)

/-! ## Reachable states -/

/-- A call of one of the three mutating functions of the service, with the
time of the call and the statements the database rejects during it. -/
inductive Call where
  | create (now : Nat) (faults : Nat → Bool) (reqBody : ReqBody)
      (coverImageFile : Option UploadFile) (productImageFiles : Option (List UploadFile))
  | update (now : Nat) (faults : Nat → Bool) (productId : Nat) (reqBody : ReqBody)
      (coverImageFile : Option UploadFile) (productImageFiles : Option (List UploadFile))
  | deleteById (faults : Nat → Bool) (productId : Nat)

/-- The type a call of `create` or `update` gives is BOOK or STATIONERY. -/
def Call.typed : Call → Prop
  | Call.create _ _ reqBody _ _ => reqBody.type = "BOOK" ∨ reqBody.type = "STATIONERY"
  | Call.update _ _ _ reqBody _ _ => reqBody.type = "BOOK" ∨ reqBody.type = "STATIONERY"
  | Call.deleteById _ _ => True

/-- The state a call leaves, whether it returns or throws. -/
def Call.run (js : JsRuntime) (sql : SqlText) (cdn : String → UploadFile → String) :
    Call → World → World
  | Call.create now faults reqBody cover files, w =>
    (HeyBook.create js sql cdn now faults reqBody cover files w).1
  | Call.update now faults productId reqBody cover files, w =>
    (HeyBook.update cdn now faults productId reqBody cover files w).1
  | Call.deleteById faults productId, w => (HeyBook.deleteById faults productId w).1

/-- An empty catalog: no product, no detail record and no product image. -/
def emptyCatalog (db : Db) : Prop :=
  db.products = [] ∧ db.bookDetails = [] ∧ db.stationeryDetails = [] ∧ db.productImages = []

/-- The states reachable from an empty catalog by calls of `create`, `update`
and `deleteById` whose type is BOOK or STATIONERY. -/
inductive Reachable (js : JsRuntime) (sql : SqlText) (cdn : String → UploadFile → String) :
    World → Prop where
  | start (w : World) : emptyCatalog w.db → Reachable js sql cdn w
  | call (w : World) (c : Call) :
      Reachable js sql cdn w → c.typed → Reachable js sql cdn (c.run js sql cdn w)

/-- Number of `BookDetail` records of a product id. -/
def bookCount (db : Db) (productId : Nat) : Nat :=
  db.bookDetails.countP (fun d => d.productId == productId)

/-- Number of `StationeryDetail` records of a product id. -/
def stationeryCount (db : Db) (productId : Nat) : Nat :=
  db.stationeryDetails.countP (fun d => d.productId == productId)

/-- A product of the given type and id has exactly one detail record and it
matches the type: one `BookDetail` and no `StationeryDetail` for a BOOK, one
`StationeryDetail` and no `BookDetail` for a STATIONERY. -/
def detailMatches (db : Db) (type : String) (productId : Nat) : Prop :=
  (type = "BOOK" ∧ bookCount db productId = 1 ∧ stationeryCount db productId = 0) ∨
  (type = "STATIONERY" ∧ stationeryCount db productId = 1 ∧ bookCount db productId = 0)

instance (db : Db) (type : String) (productId : Nat) :
    Decidable (detailMatches db type productId) := by
  unfold detailMatches; infer_instance

/-- The invariant of the data model: every product has exactly one detail
record, matching its type. -/
def detailInvariant (db : Db) : Prop :=
  ∀ p ∈ db.products, detailMatches db p.type p.id

instance (db : Db) : Decidable (detailInvariant db) := by
  unfold detailInvariant; infer_instance

/-- The statement that deletes the detail of the stored type when the type
changes. -/
def destroyOldDetail (oldType : String) (productId : Nat) (db : Db) : Db :=
  if oldType = "BOOK" then bookDetailDestroy productId db
  else if oldType = "STATIONERY" then stationeryDetailDestroy productId db
  else db

/-- The invariant the reachable states keep: the generated product key is
above every key in use, and every product has its one matching detail. -/
def catalogInv (db : Db) : Prop :=
  (∀ p ∈ db.products, p.id < db.nextProductId) ∧
  (∀ j, db.nextProductId ≤ j → bookCount db j = 0) ∧
  (∀ j, db.nextProductId ≤ j → stationeryCount db j = 0) ∧
  detailInvariant db

/-! ## getProductById -/

/-- The SQL aggregate `AVG` over a column of integers, as the service receives
it: NULL over no row; otherwise the quotient of the sum by the number of rows,
which the database rounds to the type of its result and returns as text, and
which `parseFloat` then reads as the nearest double.  `represent q` is the
number so read for the exact quotient `q`; it depends on the database and is a
parameter. -/
def sqlAvg (represent : ℚ → ℚ) (column : List Int) : Option ℚ :=
  match column with
  | [] => none
  | _ :: _ => some (represent ((column.sum : ℚ) / (column.length : ℚ)))

/-- The SQL aggregate `SUM` over a column of integers: NULL over no row. -/
def sqlSum (column : List Int) : Option Int :=
  match column with
  | [] => none
  | _ :: _ => some column.sum

/-- The SQL function `COALESCE(value, fallback)`. -/
def coalesce {α : Type} (value : Option α) (fallback : α) : α :=
  match value with
  | some a => a
  | none => fallback

/-- The SQL predicate `status NOT IN (values)`: it does not hold of NULL. -/
def sqlNotIn (status : Option String) (values : List String) : Bool :=
  match status with
  | some s => !(values.contains s)
  | none => false

/-- The row the aggregate query on `Review` returns. -/
structure ReviewStats where
  avgRating : Option ℚ
  totalReviews : Option Nat
deriving DecidableEq

/-- The query `Review.findOne` of `getProductById`: over the reviews whose
`productId` or `product_id` (one column under two names) is the product id, it
selects `COALESCE(AVG(rating), 0)` and `COUNT(id)`.  An aggregate without
grouping always returns one row. -/
def reviewStats (represent : ℚ → ℚ) (db : Db) (productId : Nat) : Option ReviewStats :=
  let rows := db.reviews.filter (fun r => r.productId == productId || r.productId == productId)
  some { avgRating := some (coalesce (sqlAvg represent (rows.map (fun r => r.rating))) 0)
         totalReviews := some rows.length }

/-- The row the aggregate query on `OrderItem` returns. -/
structure SalesStats where
  totalSold : Option Int
deriving DecidableEq

/-- The rows of the join of `getProductById`: an order item of the product,
once for each order it joins (`required: true`, so items joining no order are
dropped) whose status is not in `['RETURNED']`. -/
def salesRows (db : Db) (productId : Nat) : List OrderItem :=
  (db.orderItems.filter (fun i => i.productId == productId || i.productId == productId)).flatMap
    (fun i =>
      (db.orders.filter (fun o => o.id == i.orderId && sqlNotIn o.status ["RETURNED"])).map
        (fun _ => i))

/-- The query `OrderItem.findOne` of `getProductById`, selecting
`COALESCE(SUM(quantity), 0)` over the joined rows. -/
def salesStats (db : Db) (productId : Nat) : Option SalesStats :=
  let totalSold := coalesce (sqlSum ((salesRows db productId).map (fun i => i.quantity))) 0
  some { totalSold := some totalSold }

/-- What `getProductById` returns for a stored product: the product with its
associations, and the three aggregates. -/
structure ProductDetail where
  product : Product
  bookDetail : Option BookDetail
  stationeryDetail : Option StationeryDetail
  category : Option Category
  productImages : List ProductImage
  avgRating : ℚ
  totalReviews : Nat
  totalSold : Int
deriving DecidableEq

/-- The function `productService.getProductById`.  It only reads: the state it
leaves is the state it was given.  The counts and sums the database returns as
text are integers and `parseInt` reads them exactly; the average is read
through `represent` (see `sqlAvg`), and the 0 that `COALESCE` gives without
reviews is read as 0. -/
def getProductById (represent : ℚ → ℚ) (productId : Nat) (w : World) :
    World × Except Err (Option ProductDetail) :=
  match findByPk w.db productId with
  | none => (w, Except.ok none)
  | some product =>
    let stats := reviewStats represent w.db productId
    let avgRating : ℚ :=
      match stats with
      | some row => (match row.avgRating with
        | some a => a
        | none => 0)
      | none => 0
    let totalReviews : Nat :=
      match stats with
      | some row => (match row.totalReviews with
        | some n => n
        | none => 0)
      | none => 0
    let sales := salesStats w.db productId
    let totalSold : Int :=
      match sales with
      | some row => (match row.totalSold with
        | some n => n
        | none => 0)
      | none => 0
    (w, Except.ok (some
      { product := product
        bookDetail :=
          if product.type = "BOOK" then
            w.db.bookDetails.find? (fun d => d.productId == product.id)
          else none
        stationeryDetail :=
          if product.type = "STATIONERY" then
            w.db.stationeryDetails.find? (fun d => d.productId == product.id)
          else none
        category := w.db.categories.find? (fun c => c.id == product.categoryId)
        productImages := w.db.productImages.filter (fun i => i.productId == product.id)
        avgRating := avgRating
        totalReviews := totalReviews
        totalSold := totalSold }))

/-- The order items the sold quantity is about, in the words of the
specification: those of the product whose order exists and has a status other
than RETURNED. -/
def specSoldItems (db : Db) (productId : Nat) : List OrderItem :=
  db.orderItems.filter (fun i =>
    i.productId == productId &&
    db.orders.any (fun o =>
      o.id == i.orderId &&
      (match o.status with
       | some s => s != "RETURNED"
       | none => false)))

/-- The sold quantity in the words of the specification: the sum of the
quantities of those order items, 0 when there is none. -/
def specTotalSold (db : Db) (productId : Nat) : Int :=
  ((specSoldItems db productId).map (fun i => i.quantity)).sum

/-- The reviews of a product. -/
def reviewsOf (db : Db) (productId : Nat) : List Review :=
  db.reviews.filter (fun r => r.productId == productId)

/-! ## searchAndFilterProducts -/

/-- The SQL operator `LIKE` on the characters of a pattern and of a value: `%`
stands for any run of characters, `_` for any one character, and a backslash
makes the character after it literal.  The operator works character by
character; `same c p` tells whether the collation takes the character `c` of
the value and the literal character `p` of the pattern as equal (a collation
may ignore letter case). -/
def likeMatch (same : Char → Char → Bool) : List Char → List Char → Bool
  | [], s => s.isEmpty
  | '%' :: ps, s => s.tails.any (fun t => likeMatch same ps t)
  | '_' :: ps, s =>
    (match s with
     | [] => false
     | _ :: cs => likeMatch same ps cs)
  | [p], s =>
    (match s with
     | [] => false
     | c :: cs => same c p && cs.isEmpty)
  | p :: q :: ps, s =>
    (match s with
     | [] => false
     | c :: cs =>
       if p = Char.ofNat 92 then same c q && likeMatch same ps cs
       else same c p && likeMatch same (q :: ps) cs)

/-- The SQL predicate `value LIKE pattern`. -/
def sqlLike (sql : SqlText) (value pattern : String) : Bool :=
  likeMatch sql.sameChar pattern.toList value.toList

/-- What it means that a stored text contains a given text under a collation:
some run of consecutive characters of the value is equal to the text, character
by character, as the collation compares characters. -/
def containsUnder (same : Char → Char → Bool) (value text : String) : Prop :=
  ∃ t : List Char, t <:+: value.toList ∧
    List.Forall₂ (fun c p => same c p = true) t text.toList

/-- A value of the query object as JavaScript sees it: undefined, null, a
string, a finite number or NaN. -/
inductive JsValue where
  | undefined
  | null
  | str (s : String)
  | num (x : ℚ)
  | nan
deriving DecidableEq

/-- The conversion `Number(v)`, with `none` for NaN. -/
def JsValue.toNumber (js : JsRuntime) : JsValue → Option ℚ
  | JsValue.undefined => none
  | JsValue.null => some 0
  | JsValue.str s => js.number s
  | JsValue.num x => some x
  | JsValue.nan => none

/-- The global function `isNaN(v)`. -/
def isNaN (js : JsRuntime) (v : JsValue) : Bool :=
  (v.toNumber js).isNone

/-- The global function `parseFloat(v)`, with `none` for NaN: it parses the
text of its argument, and the texts of undefined and null are not numbers. -/
def parseFloat (js : JsRuntime) : JsValue → Option ℚ
  | JsValue.undefined => none
  | JsValue.null => none
  | JsValue.str s => js.parseFloat s
  | JsValue.num x => some x
  | JsValue.nan => none

/-- The filters `searchAndFilterProducts` destructures.  A property is `none`
when it is undefined. -/
structure Filters where
  page : Option Nat
  itemsPerPage : Option Nat
  search : Option String
  type : Option String
  bookGenreId : Option Nat
  language : Option String
  categoryId : Option Nat
  minPrice : JsValue
  maxPrice : JsValue

/-- The test `if (s)` on an optional string: the empty string is falsy. -/
def truthyString (s : Option String) : Option String :=
  match s with
  | some v => if v = "" then none else some v
  | none => none

/-- The test `if (n)` on an optional number: zero is falsy. -/
def truthyNumber (n : Option Nat) : Option Nat :=
  match n with
  | some v => if v = 0 then none else some v
  | none => none

/-- The expression `hasMinPrice` / `hasMaxPrice`: `v !== undefined && v !== null
&& v !== '' && !isNaN(v)`. -/
def hasPrice (js : JsRuntime) (v : JsValue) : Bool :=
  v != JsValue.undefined && v != JsValue.null && v != JsValue.str "" && !(isNaN js v)

/-- A literal SQL condition on the price after discount, as `Sequelize.literal`
receives it: the text of the formula, a comparison and the text of
`parseFloat(bound)`, which is `none` when that text is `NaN`. -/
inductive PriceLiteral where
  | ge (bound : Option ℚ)
  | le (bound : Option ℚ)
deriving DecidableEq

/-- The object `whereClause` built for `Product`. -/
structure WhereClause where
  name : Option String
  type : Option String
  categoryId : Option Nat
  opAnd : List PriceLiteral
deriving DecidableEq

/-- The construction of `whereClause` from the filters. -/
def whereClause (js : JsRuntime) (filters : Filters) : WhereClause :=
  let hasMinPrice := hasPrice js filters.minPrice
  let hasMaxPrice := hasPrice js filters.maxPrice
  { name := (truthyString filters.search).map (fun search => "%" ++ search ++ "%")
    type := truthyString filters.type
    categoryId := truthyNumber filters.categoryId
    opAnd :=
      if hasMinPrice || hasMaxPrice then
        if hasMinPrice && hasMaxPrice then
          [PriceLiteral.ge (parseFloat js filters.minPrice),
           PriceLiteral.le (parseFloat js filters.maxPrice)]
        else if hasMinPrice then [PriceLiteral.ge (parseFloat js filters.minPrice)]
        else if hasMaxPrice then [PriceLiteral.le (parseFloat js filters.maxPrice)]
        else []
      else [] }

/-- The value of the SQL expression `price * (100 - discount) / 100`, whose
division is exact. -/
def finalPrice (p : Product) : ℚ :=
  ((p.price : ℚ) * (100 - (p.discount : ℚ))) / 100

/-- Whether the database can evaluate a literal: not when its bound reads
`NaN`. -/
def PriceLiteral.valid : PriceLiteral → Bool
  | PriceLiteral.ge bound => bound.isSome
  | PriceLiteral.le bound => bound.isSome

/-- Whether a literal holds of a product row. -/
def PriceLiteral.holds : PriceLiteral → Product → Bool
  | PriceLiteral.ge (some x), p => decide (finalPrice p ≥ x)
  | PriceLiteral.le (some x), p => decide (finalPrice p ≤ x)
  | _, _ => false

/-- Whether a product row satisfies `whereClause`. -/
def WhereClause.holds (sql : SqlText) (wc : WhereClause) (p : Product) : Bool :=
  (match wc.name with
   | some pattern => sqlLike sql p.name pattern
   | none => true) &&
  (match wc.type with
   | some t => sql.equal p.type t
   | none => true) &&
  (match wc.categoryId with
   | some c => p.categoryId == c
   | none => true) &&
  wc.opAnd.all (fun literal => literal.holds p)

/-- The object `bookDetailInclude`: the join on `BookDetail`, its `required`
flag and its `where`. -/
structure BookDetailInclude where
  required : Bool
  bookGenreId : Option Nat
  language : Option String
deriving DecidableEq

/-- The construction of `bookDetailInclude` from the filters. -/
def bookDetailInclude (filters : Filters) : BookDetailInclude :=
  if (truthyNumber filters.bookGenreId).isSome || (truthyString filters.language).isSome then
    { required := true
      bookGenreId := truthyNumber filters.bookGenreId
      language := (truthyString filters.language).map (fun language => "%" ++ language ++ "%") }
  else { required := false, bookGenreId := none, language := none }

/-- Whether a `BookDetail` row joins a product under the include. -/
def BookDetailInclude.joins (sql : SqlText) (inc : BookDetailInclude) (p : Product)
    (d : BookDetail) : Bool :=
  d.productId == p.id &&
  (match inc.bookGenreId with
   | some g => d.bookGenreId == g
   | none => true) &&
  (match inc.language with
   | some pattern => sqlLike sql d.language pattern
   | none => true)

/-- A row of the result of the search: the product with its associations. -/
structure SearchRow where
  product : Product
  category : Option Category
  productImages : List ProductImage
  bookDetail : Option BookDetail
  stationeryDetail : Option StationeryDetail
deriving DecidableEq

/-- The product rows the query of the search selects, before ordering and
paging: those that satisfy `whereClause` and, when the join on `BookDetail` is
required, join a detail.  The database rejects the query when a literal of the
clause reads `NaN`. -/
def matchedProducts (js : JsRuntime) (sql : SqlText) (filters : Filters) (db : Db) :
    Except Err (List Product) :=
  let wc := whereClause js filters
  let inc := bookDetailInclude filters
  if wc.opAnd.all (fun literal => literal.valid) then
    Except.ok (db.products.filter (fun p =>
      wc.holds sql p && (!inc.required || db.bookDetails.any (fun d => inc.joins sql p d))))
  else Except.error Err.dbError

/-- The associations loaded with a product row of the search. -/
def searchRow (sql : SqlText) (filters : Filters) (db : Db) (p : Product) : SearchRow :=
  { product := p
    category := db.categories.find? (fun c => c.id == p.categoryId)
    productImages := db.productImages.filter (fun i => i.productId == p.id)
    bookDetail := db.bookDetails.find? (fun d => (bookDetailInclude filters).joins sql p d)
    stationeryDetail := db.stationeryDetails.find? (fun d => d.productId == p.id) }

/-- The result of the search. -/
structure SearchResult where
  data : List SearchRow
  count : Nat
deriving DecidableEq

/-- The function `productService.searchAndFilterProducts`.  The defaults of
`page` and `itemsPerPage` come from a module outside the repository sources and
are parameters.  The rows are ordered by `updatedAt` descending, then `limit`
rows are taken from `offset` on; the database rejects a negative offset.
`count` counts the distinct ids of the selected products. -/
def searchAndFilterProducts (js : JsRuntime) (sql : SqlText)
    (DEFAULT_PAGE DEFAULT_ITEMS_PER_PAGE : Nat)
    (filters : Filters) (w : World) : World × Except Err SearchResult :=
  let page := filters.page.getD DEFAULT_PAGE
  let itemsPerPage := filters.itemsPerPage.getD DEFAULT_ITEMS_PER_PAGE
  let offset : Int := ((page : Int) - 1) * (itemsPerPage : Int)
  match matchedProducts js sql filters w.db with
  | Except.error e => (w, Except.error e)
  | Except.ok rows =>
    if offset < 0 then (w, Except.error Err.dbError)
    else
      let ordered := rows.insertionSort (fun a b => b.updatedAt ≤ a.updatedAt)
      let pageRows := (ordered.drop offset.toNat).take itemsPerPage
      (w, Except.ok
        { data := pageRows.map (searchRow sql filters w.db)
          count := ((rows.map (fun p => p.id)).dedup).length })

/-- The price filter in the words of the specification: a numeric value gives
its number as the bound (a number, or a nonempty string that both conversions
read as that number), and a value that is undefined, null, the empty string or
not a number gives no bound. -/
inductive SpecPriceBound (js : JsRuntime) : JsValue → Option ℚ → Prop where
  | number (x : ℚ) : SpecPriceBound js (JsValue.num x) (some x)
  | numericString (s : String) (x : ℚ) : s ≠ "" → js.number s = some x →
      js.parseFloat s = some x → SpecPriceBound js (JsValue.str s) (some x)
  | undefined : SpecPriceBound js JsValue.undefined none
  | null : SpecPriceBound js JsValue.null none
  | emptyString : SpecPriceBound js (JsValue.str "") none
  | notANumber : SpecPriceBound js JsValue.nan none
  | notNumericString (s : String) : js.number s = none → SpecPriceBound js (JsValue.str s) none

/-- The filters with both price bounds left out. -/
def Filters.withoutPrice (filters : Filters) : Filters :=
  { filters with minPrice := JsValue.undefined, maxPrice := JsValue.undefined }

/-! ## Sample data -/

/-- An image store that names a file after its folder and its original name. -/
def sampleCdn (folder : String) (file : UploadFile) : String :=
  folder ++ "/" ++ file.originalname

/-- A database that rejects no statement. -/
def noFaults : Nat → Bool := fun _ => false

/-- A database that rejects the statement numbered 3 and no other. -/
def rejectsStatement3 : Nat → Bool := fun n => n == 3

/-- Lower-casing of the letters A to Z, character by character. -/
def asciiLower (s : String) : String :=
  String.mk (s.data.map Char.toLower)

/-- A runtime that reads the string 50 as the number 50 and no other string as
a number, and lower-cases the letters A to Z. -/
def sampleJs : JsRuntime :=
  { number := fun s => if s = "50" then some 50 else none
    parseFloat := fun s => if s = "50" then some 50 else none
    toLowerCase := asciiLower }

/-- Text operations that ignore the case of the letters A to Z. -/
def sampleSql : SqlText :=
  { lower := asciiLower
    equal := fun a b => asciiLower a == asciiLower b
    sameChar := fun c p => c.toLower == p.toLower }

/-- Equality of two names ignoring the case of the letters A to Z: the names have
the same length and agree character by character once each letter A to Z is
replaced by its small letter. -/
def sameIgnoringAsciiCase (stored requested : String) : Prop :=
  stored.data.map Char.toLower = requested.data.map Char.toLower

/-- A representation of the average that keeps the exact quotient. -/
def exactAverage : ℚ → ℚ := fun q => q

/-- A cover file. -/
def sampleCover : UploadFile := { buffer := "c", originalname := "c.png" }

/-- A book detail object. -/
def sampleBookData : BookDetailData :=
  { bookGenreId := 2, author := "A", translator := "T", language := "vi", publisher := "P",
    publishYear := 2020, pageCount := 100 }

/-- A stationery detail object. -/
def sampleStationeryData : StationeryDetailData :=
  { brand := "B", placeProduction := "VN", color := "red", material := "paper" }

/-- A request body of the given type, with both detail objects and no image
list. -/
def sampleBody (type : String) : ReqBody :=
  { categoryId := 1, name := "N", price := 100, discount := 10, stock := 5, description := "D",
    dimension := "1x1", type := type, bookDetail := some sampleBookData,
    stationeryDetail := some sampleStationeryData, productImages := none }

/-- A stationery request body with the given name. -/
def sampleBodyNamed (name : String) : ReqBody :=
  { categoryId := 1, name := name, price := 100, discount := 10, stock := 5,
    description := "D", dimension := "1x1", type := "STATIONERY", bookDetail := none,
    stationeryDetail := some sampleStationeryData, productImages := none }

/-- The state with empty tables and nothing uploaded. -/
def emptyWorld : World :=
  { db := { products := [], bookDetails := [], stationeryDetails := [], productImages := [],
            categories := [], reviews := [], orders := [], orderItems := [],
            nextProductId := 1, nextImageId := 1 }
    uploads := [] }

/-- The state after a book is created in the empty state. -/
def bookWorld : World :=
  (create sampleJs sampleSql sampleCdn 1 noFaults (sampleBody "BOOK") (some sampleCover) none
    emptyWorld).1

/-- The state after a stationery product is created in the empty state. -/
def stationeryWorld : World :=
  (create sampleJs sampleSql sampleCdn 1 noFaults (sampleBody "STATIONERY") (some sampleCover)
    none emptyWorld).1

/-- A request body of type BOOK without the `bookDetail` object. -/
def bookBodyWithoutDetail : ReqBody :=
  { sampleBody "BOOK" with bookDetail := none }

/-- The `ProductImage` records of a product. -/
def imagesOf (db : Db) (productId : Nat) : List ProductImage :=
  db.productImages.filter (fun i => i.productId == productId)

/-- The images a call of `update` supplies: the URLs of the uploaded
`productImageFiles`, then the non-empty URLs of `reqBody.productImages`. -/
def suppliedImages (cdn : String → UploadFile → String) (reqBody : ReqBody)
    (productImageFiles : Option (List UploadFile)) : List String :=
  (productImageFiles.getD []).map (cdn "productImages") ++ bodyImageUrls reqBody.productImages

/-- A gallery file. -/
def sampleImage : UploadFile := { buffer := "i", originalname := "i.png" }

/-- The state after a book with one gallery image is created in the empty
state. -/
def galleryWorld : World :=
  (create sampleJs sampleSql sampleCdn 1 noFaults (sampleBody "BOOK") (some sampleCover)
    (some [sampleImage]) emptyWorld).1

/-- The sample state with a book, three orders (delivered, returned, without a
status), order items of the book on each of them and on a missing order, and
three reviews of the book. -/
def salesWorld : World :=
  { bookWorld with
    db := { bookWorld.db with
      orders := [{ id := 1, status := some "DELIVERED" }, { id := 2, status := some "RETURNED" },
                 { id := 3, status := none }]
      orderItems := [{ id := 1, orderId := 1, productId := 1, quantity := 2 },
                     { id := 2, orderId := 2, productId := 1, quantity := 5 },
                     { id := 3, orderId := 9, productId := 1, quantity := 7 },
                     { id := 4, orderId := 1, productId := 2, quantity := 11 },
                     { id := 5, orderId := 3, productId := 1, quantity := 13 },
                     { id := 6, orderId := 1, productId := 1, quantity := 4 }]
      reviews := [{ id := 1, productId := 1, rating := 5 }, { id := 2, productId := 2, rating := 1 },
                  { id := 3, productId := 1, rating := 4 }, { id := 4, productId := 1, rating := 4 }] } }

/-- Filters that give only a minimal price, as the string 50. -/
def minPriceFilters : Filters :=
  { page := none, itemsPerPage := none, search := none, type := none, bookGenreId := none,
    language := none, categoryId := none, minPrice := JsValue.str "50",
    maxPrice := JsValue.undefined }

/-- A string without the characters the operator `LIKE` reads specially: `%`,
`_` and the backslash. -/
def wildcardFree (s : String) : Prop :=
  ∀ c ∈ s.toList, c ≠ '%' ∧ c ≠ '_' ∧ c ≠ Char.ofNat 92

/-- A runtime that reads two strings as JavaScript does, and every other string
as NaN: for the blank string `Number` gives 0 and `parseFloat` gives NaN, and
for the string 0x10 `Number` gives 16 and `parseFloat` gives 0. -/
def quirkJs : JsRuntime :=
  { number := fun s => if s = " " then some 0 else if s = "0x10" then some 16 else none
    parseFloat := fun s => if s = "0x10" then some 0 else none
    toLowerCase := asciiLower }

/-- Filters that give only a minimal price. -/
def priceFilters (minPrice : JsValue) : Filters :=
  { page := none, itemsPerPage := none, search := none, type := none, bookGenreId := none,
    language := none, categoryId := none, minPrice := minPrice,
    maxPrice := JsValue.undefined }

/-- The request body of a stationery product of price 10 without discount. -/
def cheapBody : ReqBody :=
  { categoryId := 1, name := "cheap", price := 10, discount := 0, stock := 5,
    description := "D", dimension := "1x1", type := "STATIONERY", bookDetail := none,
    stationeryDetail := some sampleStationeryData, productImages := none }

/-- The state after that product is created next to the book of the sample
state. -/
def cheapWorld : World :=
  (create sampleJs sampleSql sampleCdn 2 noFaults cheapBody (some sampleCover) none
    bookWorld).1

/-- The product row that creation stores. -/
def cheapProduct : Product :=
  productRow 2 2 cheapBody "coverImages/c.png"

/-- Filters that give only a language. -/
def languageFilters (language : String) : Filters :=
  { page := none, itemsPerPage := none, search := none, type := none, bookGenreId := none,
    language := some language, categoryId := none, minPrice := JsValue.undefined,
    maxPrice := JsValue.undefined }

/-- The row of the book of the sample state, as the search loads it under the
given filters. -/
def bookSearchRow (filters : Filters) : SearchRow :=
  searchRow sampleSql filters bookWorld.db
    (productRow 1 1 (sampleBody "BOOK") "coverImages/c.png")

/-! ## userController -/

namespace userController

/-- What `userService.login` returns: the two tokens and the user. -/
structure LoginResult where
  accessToken : String
  refreshToken : String
  user : String
deriving DecidableEq, Repr

/-- What `userService.refreshToken` returns. -/
structure RefreshResult where
  accessToken : String
deriving DecidableEq, Repr

/-- The module `userService`, which is outside the repository sources: each of
its calls returns a value or throws. -/
structure UserService where
  register : String → Except Err String
  verifyAccount : String → Except Err String
  login : String → Except Err LoginResult
  refreshToken : Option String → Except Err RefreshResult
  update : String → String → Option UploadFile → Except Err String

/-- What the handlers read of the request: the body, the cookie
`req.cookies?.refreshToken`, the id `req.jwtDecoded._id` (`none` when
`req.jwtDecoded` is undefined) and the uploaded file. -/
structure Request where
  body : String
  refreshTokenCookie : Option String
  jwtDecoded : Option String
  file : Option UploadFile
deriving DecidableEq, Repr

/-- The body of a success response. -/
inductive Body where
  | json (value : String)
  | token (result : RefreshResult)
  | loggedOut
deriving DecidableEq, Repr

/-- What a handler does, in order: set or clear a cookie, send the response
`res.status(status).json(body)`, or call `next`, with an error argument or
without one. -/
inductive Action where
  | cookie (name value : String)
  | clearCookie (name : String)
  | respond (status : Nat) (body : Body)
  | next (error : Option Err)
deriving DecidableEq, Repr

/-- The handler `createNew`. -/
def createNew (userService : UserService) (req : Request) : List Action :=
  match userService.register req.body with
  | Except.ok createdUser => [Action.respond 201 (Body.json createdUser)]
  | Except.error error => [Action.next (some error)]

/-- The handler `verifyAccount`: its `catch` binds no error and calls `next()`. -/
def verifyAccount (userService : UserService) (req : Request) : List Action :=
  match userService.verifyAccount req.body with
  | Except.ok result => [Action.respond 200 (Body.json result)]
  | Except.error _ => [Action.next none]

/-- The handler `login`; `pickUser` is a formatter outside the repository
sources. -/
def login (pickUser : LoginResult → String) (userService : UserService) (req : Request) :
    List Action :=
  match userService.login req.body with
  | Except.ok result =>
    [Action.cookie "accessToken" result.accessToken,
     Action.cookie "refreshToken" result.refreshToken,
     Action.respond 200 (Body.json (pickUser result))]
  | Except.error error => [Action.next (some error)]

/-- The handler `logout`, which calls no service. -/
def logout : List Action :=
  [Action.clearCookie "accessToken", Action.clearCookie "refreshToken",
   Action.respond 200 Body.loggedOut]

/-- The handler `refreshToken`: its `catch` calls `next` with a new `ApiError`
403. -/
def refreshToken (userService : UserService) (req : Request) : List Action :=
  match userService.refreshToken req.refreshTokenCookie with
  | Except.ok result =>
    [Action.cookie "accessToken" result.accessToken, Action.respond 200 (Body.token result)]
  | Except.error _ =>
    [Action.next (some (Err.api 403 "Please Sign In! (Error from refresh Token)"))]

/-- The handler `update`: reading `req.jwtDecoded._id` throws inside the `try`
when `req.jwtDecoded` is undefined, and the `catch` binds no error and calls
`next()`. -/
def update (userService : UserService) (req : Request) : List Action :=
  match req.jwtDecoded with
  | none => [Action.next none]
  | some userId =>
    match userService.update userId req.body req.file with
    | Except.ok updatedUser => [Action.respond 200 (Body.json updatedUser)]
    | Except.error _ => [Action.next none]

/-- Reporting a failure, in the words of the specification: the handler calls
`next` with an error argument and sends no success response. -/
def specReportsFailure (actions : List Action) : Bool :=
  actions.any (fun a =>
    match a with
    | Action.next (some _) => true
    | _ => false) &&
  actions.all (fun a =>
    match a with
    | Action.respond _ _ => false
    | _ => true)

/-- A service whose account verification throws that the account is missing. -/
def accountMissing : UserService :=
  { register := fun body => Except.ok body
    verifyAccount := fun _ => Except.error (Err.api 404 "Account not found!")
    login := fun _ => Except.error (Err.api 404 "Account not found!")
    refreshToken := fun _ => Except.error (Err.api 404 "Account not found!")
    update := fun _ _ _ => Except.error (Err.api 404 "Account not found!") }

/-- A request of a signed-in user. -/
def sampleRequest : Request :=
  { body := "b", refreshTokenCookie := some "t", jwtDecoded := some "u1", file := none }

end userController

/-! # Theorems -/

/-! ## Lemmas on the error monad and the statements -/

theorem bind_eq_ok {α β : Type} (x : Except Err α) (f : α → Except Err β) (b : β) :
    (x >>= f) = Except.ok b ↔ ∃ a, x = Except.ok a ∧ f a = Except.ok b := by
  cases x <;> simp [bind, Except.bind]

theorem stmt_eq_ok (fails : Bool) (effect : Db → Db) (db db' : Db) :
    stmt fails effect db = Except.ok db' ↔ fails = false ∧ effect db = db' := by
  unfold stmt; cases fails <;> simp

theorem propsOf_eq_ok {α : Type} (o : Option α) (a : α) :
    propsOf o = Except.ok a ↔ o = some a := by
  cases o <;> simp [propsOf]

theorem query_eq_ok {α : Type} (fails : Bool) (read : Db → α) (db : Db) (r : α × Db) :
    query fails read db = Except.ok r ↔ fails = false ∧ r = (read db, db) := by
  unfold query; cases fails <;> simp [eq_comm]

theorem findByPk_some {db : Db} {productId : Nat} {p : Product}
    (h : findByPk db productId = some p) : p ∈ db.products ∧ p.id = productId := by
  unfold findByPk at h
  exact ⟨List.mem_of_find?_eq_some h, by simpa using List.find?_some h⟩

theorem bookCount_bookDetailUpdate (db : Db) (productId : Nat) (b : BookDetailData) (j : Nat) :
    bookCount (bookDetailUpdate productId b db) j = bookCount db j := by
  simp only [bookCount, bookDetailUpdate, List.countP_map]
  congr 1
  funext d
  by_cases h : d.productId = productId <;> simp [h, bookDetailRow]

theorem stationeryCount_stationeryDetailUpdate (db : Db) (productId : Nat)
    (s : StationeryDetailData) (j : Nat) :
    stationeryCount (stationeryDetailUpdate productId s db) j = stationeryCount db j := by
  simp only [stationeryCount, stationeryDetailUpdate, List.countP_map]
  congr 1
  funext d
  by_cases h : d.productId = productId <;> simp [h, stationeryDetailRow]

theorem bookCount_bookDetailCreate (db : Db) (productId : Nat) (b : BookDetailData) (j : Nat) :
    bookCount (bookDetailCreate productId b db) j
      = bookCount db j + (if productId = j then 1 else 0) := by
  simp only [bookCount, bookDetailCreate, List.countP_append]
  by_cases h : productId = j <;> simp [h, bookDetailRow, List.countP_cons]

theorem stationeryCount_stationeryDetailCreate (db : Db) (productId : Nat)
    (s : StationeryDetailData) (j : Nat) :
    stationeryCount (stationeryDetailCreate productId s db) j
      = stationeryCount db j + (if productId = j then 1 else 0) := by
  simp only [stationeryCount, stationeryDetailCreate, List.countP_append]
  by_cases h : productId = j <;> simp [h, stationeryDetailRow, List.countP_cons]

theorem bookCount_bookDetailDestroy (db : Db) (productId j : Nat) :
    bookCount (bookDetailDestroy productId db) j
      = if j = productId then 0 else bookCount db j := by
  simp only [bookCount, bookDetailDestroy, List.countP_filter]
  by_cases h : j = productId
  · subst h
    simp [List.countP_eq_zero]
  · simp only [h, if_false]
    congr 1
    funext d
    by_cases hd : d.productId = j
    · simp [hd, h]
    · simp [hd]

theorem stationeryCount_stationeryDetailDestroy (db : Db) (productId j : Nat) :
    stationeryCount (stationeryDetailDestroy productId db) j
      = if j = productId then 0 else stationeryCount db j := by
  simp only [stationeryCount, stationeryDetailDestroy, List.countP_filter]
  by_cases h : j = productId
  · subst h
    simp [List.countP_eq_zero]
  · simp only [h, if_false]
    congr 1
    funext d
    by_cases hd : d.productId = j
    · simp [hd, h]
    · simp [hd]

theorem bookCount_congr {db db' : Db} (h : db'.bookDetails = db.bookDetails) (j : Nat) :
    bookCount db' j = bookCount db j := by
  simp [bookCount, h]

theorem stationeryCount_congr {db db' : Db} (h : db'.stationeryDetails = db.stationeryDetails)
    (j : Nat) : stationeryCount db' j = stationeryCount db j := by
  simp [stationeryCount, h]

theorem count_eq_zero_of_lt {α : Type} (l : List α) (key : α → Nat) (n : Nat)
    (h : ∀ a ∈ l, key a < n) : l.countP (fun a => key a == n) = 0 := by
  rw [List.countP_eq_zero]
  intro a ha
  have := h a ha
  simp; omega

/-- The image step of `update` touches only the table of product images. -/
theorem productImagesStep_frame {faults : Nat → Bool} {k productId : Nat} {reqBody : ReqBody}
    {uploaded : List String} {db db' : Db}
    (h : productImagesStep faults k productId reqBody uploaded db = Except.ok db') :
    db'.products = db.products ∧ db'.bookDetails = db.bookDetails ∧
    db'.stationeryDetails = db.stationeryDetails ∧ db'.nextProductId = db.nextProductId ∧
    db'.reviews = db.reviews ∧ db'.orders = db.orders ∧ db'.orderItems = db.orderItems ∧
    db'.categories = db.categories := by
  unfold productImagesStep at h
  split at h
  · rw [bind_eq_ok] at h
    obtain ⟨db1, h1, h2⟩ := h
    rw [stmt_eq_ok] at h1
    obtain ⟨-, rfl⟩ := h1
    split at h2
    · rw [stmt_eq_ok] at h2
      obtain ⟨-, rfl⟩ := h2
      simp [productImageBulkCreate, productImageDestroy]
    · cases h2
      simp [productImageDestroy]
  · cases h
    simp

theorem bookCount_productUpdate (db : Db) (productId now : Nat) (reqBody : ReqBody)
    (url : String) (j : Nat) :
    bookCount (productUpdate productId now reqBody url db) j = bookCount db j := rfl

theorem stationeryCount_productUpdate (db : Db) (productId now : Nat)
    (reqBody : ReqBody) (url : String) (j : Nat) :
    stationeryCount (productUpdate productId now reqBody url db) j = stationeryCount db j := rfl

theorem bookCount_stationeryDetailUpdate (db : Db) (productId : Nat)
    (s : StationeryDetailData) (j : Nat) :
    bookCount (stationeryDetailUpdate productId s db) j = bookCount db j := rfl

theorem stationeryCount_bookDetailUpdate (db : Db) (productId : Nat)
    (b : BookDetailData) (j : Nat) :
    stationeryCount (bookDetailUpdate productId b db) j = stationeryCount db j := rfl

theorem bookCount_stationeryDetailCreate (db : Db) (productId : Nat)
    (s : StationeryDetailData) (j : Nat) :
    bookCount (stationeryDetailCreate productId s db) j = bookCount db j := rfl

theorem stationeryCount_bookDetailCreate (db : Db) (productId : Nat)
    (b : BookDetailData) (j : Nat) :
    stationeryCount (bookDetailCreate productId b db) j = stationeryCount db j := rfl

theorem bookCount_stationeryDetailDestroy (db : Db) (productId j : Nat) :
    bookCount (stationeryDetailDestroy productId db) j = bookCount db j := rfl

theorem stationeryCount_bookDetailDestroy (db : Db) (productId j : Nat) :
    stationeryCount (bookDetailDestroy productId db) j = stationeryCount db j := rfl

theorem bookCount_productImageDestroy (db : Db) (productId j : Nat) :
    bookCount (productImageDestroy productId db) j = bookCount db j := rfl

theorem stationeryCount_productImageDestroy (db : Db) (productId j : Nat) :
    stationeryCount (productImageDestroy productId db) j = stationeryCount db j := rfl

theorem bookCount_productDestroy (db : Db) (productId j : Nat) :
    bookCount (productDestroy productId db) j = bookCount db j := rfl

theorem stationeryCount_productDestroy (db : Db) (productId j : Nat) :
    stationeryCount (productDestroy productId db) j = stationeryCount db j := rfl

theorem bookCount_productImageBulkCreate (db : Db) (productId : Nat)
    (urls : List (Option String)) (j : Nat) :
    bookCount (productImageBulkCreate productId urls db) j = bookCount db j := rfl

theorem stationeryCount_productImageBulkCreate (db : Db) (productId : Nat)
    (urls : List (Option String)) (j : Nat) :
    stationeryCount (productImageBulkCreate productId urls db) j = stationeryCount db j := rfl

theorem bookCount_productCreate (db : Db) (now : Nat) (reqBody : ReqBody)
    (url : String) (j : Nat) :
    bookCount (productCreate now reqBody url db) j = bookCount db j := rfl

theorem stationeryCount_productCreate (db : Db) (now : Nat) (reqBody : ReqBody)
    (url : String) (j : Nat) :
    stationeryCount (productCreate now reqBody url db) j = stationeryCount db j := rfl

theorem catalogInv_of_empty {db : Db} (h : emptyCatalog db) : catalogInv db := by
  obtain ⟨h1, h2, h3, -⟩ := h
  simp [catalogInv, detailInvariant, bookCount, stationeryCount, h1, h2, h3]

/-- The state a committed transaction of `create` leaves. -/
theorem createTx_ok {now : Nat} {faults : Nat → Bool} {reqBody : ReqBody} {url : String}
    {uploaded : List String} {db db' : Db} {v : ProductView}
    (h : createTx now faults reqBody url uploaded db = Except.ok (v, db')) :
    ∃ dbi, dbi = productImageBulkCreate db.nextProductId
        (dataProductImages uploaded reqBody) (productCreate now reqBody url db) ∧
      ((reqBody.type = "BOOK" ∧ ∃ b, reqBody.bookDetail = some b ∧
          db' = bookDetailCreate db.nextProductId b dbi) ∨
       (reqBody.type = "STATIONERY" ∧ ∃ s, reqBody.stationeryDetail = some s ∧
          db' = stationeryDetailCreate db.nextProductId s dbi) ∨
       (reqBody.type ≠ "BOOK" ∧ reqBody.type ≠ "STATIONERY" ∧ db' = dbi)) := by
  unfold createTx at h
  simp only [bind_eq_ok, stmt_eq_ok] at h
  obtain ⟨bd, hbd, sd, hsd, db1, ⟨-, rfl⟩, db2, h2, db3, h3, db4, h4, hret⟩ := h
  simp only [pure, Except.pure, Except.ok.injEq, Prod.mk.injEq] at hret
  obtain ⟨-, rfl⟩ := hret
  have hdb2 : db2 = productImageBulkCreate db.nextProductId
      (dataProductImages uploaded reqBody) (productCreate now reqBody url db) := by
    split at h2
    · rename_i hempty
      simp only [Except.ok.injEq] at h2
      rw [← h2, List.isEmpty_iff.mp hempty]
      simp [productImageBulkCreate, imageRows]
    · rw [stmt_eq_ok] at h2
      exact h2.2.symm
  subst hdb2
  refine ⟨_, rfl, ?_⟩
  by_cases hB : reqBody.type = "BOOK"
  · have hS : reqBody.type ≠ "STATIONERY" := by rw [hB]; decide
    simp only [hB, if_true] at hbd
    simp only [hS, if_false, Except.ok.injEq] at hsd
    subst hsd
    cases hb : reqBody.bookDetail with
    | none => simp [hb, propsOf, Except.map] at hbd
    | some b =>
      simp only [hb, propsOf, Except.map, Except.ok.injEq] at hbd
      subst hbd
      simp only [stmt_eq_ok] at h3
      obtain ⟨-, rfl⟩ := h3
      simp only [Except.ok.injEq] at h4
      subst h4
      exact Or.inl ⟨hB, b, rfl, rfl⟩
  · simp only [hB, if_false, Except.ok.injEq] at hbd
    subst hbd
    simp only [Except.ok.injEq] at h3
    subst h3
    by_cases hS : reqBody.type = "STATIONERY"
    · simp only [hS, if_true] at hsd
      cases hs : reqBody.stationeryDetail with
      | none => simp [hs, propsOf, Except.map] at hsd
      | some s =>
        simp only [hs, propsOf, Except.map, Except.ok.injEq] at hsd
        subst hsd
        simp only [stmt_eq_ok] at h4
        obtain ⟨-, rfl⟩ := h4
        exact Or.inr (Or.inl ⟨hS, s, rfl, rfl⟩)
    · simp only [hS, if_false, Except.ok.injEq] at hsd
      subst hsd
      simp only [Except.ok.injEq] at h4
      subst h4
      exact Or.inr (Or.inr ⟨hB, hS, rfl⟩)

/-- The state a committed transaction of `update` leaves when the type is kept:
the product row and the detail of the type are updated, then the image step
runs. -/
theorem updateSameTypeTx_ok {now : Nat} {faults : Nat → Bool} {productId : Nat}
    {reqBody : ReqBody} {url : String} {uploaded : List String} {db db' : Db}
    {v : Option ProductView}
    (h : updateSameTypeTx now faults productId reqBody url uploaded db = Except.ok (v, db')) :
    ∃ dbd, productImagesStep faults 2 productId reqBody uploaded dbd = Except.ok db' ∧
      v = findByPkFull db' productId ∧
      ((reqBody.type = "BOOK" ∧ ∃ b, reqBody.bookDetail = some b ∧
          dbd = bookDetailUpdate productId b (productUpdate productId now reqBody url db)) ∨
       (reqBody.type ≠ "BOOK" ∧ ∃ s, reqBody.stationeryDetail = some s ∧
          dbd = stationeryDetailUpdate productId s
            (productUpdate productId now reqBody url db))) := by
  unfold updateSameTypeTx at h
  simp only [bind_eq_ok, stmt_eq_ok, query_eq_ok] at h
  obtain ⟨db1, ⟨-, rfl⟩, db2, h2, db3, h3, -, hq⟩ := h
  simp only [Prod.mk.injEq] at hq
  obtain ⟨rfl, rfl⟩ := hq
  refine ⟨db2, h3, rfl, ?_⟩
  by_cases hB : reqBody.type = "BOOK"
  · simp only [hB, if_true, bind_eq_ok, propsOf_eq_ok, stmt_eq_ok] at h2
    obtain ⟨b, hb, -, rfl⟩ := h2
    exact Or.inl ⟨hB, b, hb, rfl⟩
  · simp only [hB, if_false, bind_eq_ok, propsOf_eq_ok, stmt_eq_ok] at h2
    obtain ⟨s, hs, -, rfl⟩ := h2
    exact Or.inr ⟨hB, s, hs, rfl⟩

/-- The state a committed transaction of `update` leaves when the type
changes: the detail of the stored type is deleted, the product row is updated,
the detail of the new type is inserted, then the image step runs. -/
theorem updateTypeChangeTx_ok {now : Nat} {faults : Nat → Bool} {oldProduct : Product}
    {productId : Nat} {reqBody : ReqBody} {url : String} {uploaded : List String}
    {db db' : Db} {v : Option ProductView}
    (h : updateTypeChangeTx now faults oldProduct productId reqBody url uploaded db
      = Except.ok (v, db')) :
    ∃ dbd, productImagesStep faults 3 productId reqBody uploaded dbd = Except.ok db' ∧
      v = findByPkFull db' productId ∧
      ((reqBody.type = "BOOK" ∧ ∃ b, reqBody.bookDetail = some b ∧
          dbd = bookDetailCreate productId b (productUpdate productId now reqBody url
            (destroyOldDetail oldProduct.type productId db))) ∨
       (reqBody.type = "STATIONERY" ∧ ∃ s, reqBody.stationeryDetail = some s ∧
          dbd = stationeryDetailCreate productId s (productUpdate productId now reqBody url
            (destroyOldDetail oldProduct.type productId db))) ∨
       (reqBody.type ≠ "BOOK" ∧ reqBody.type ≠ "STATIONERY" ∧
          dbd = productUpdate productId now reqBody url
            (destroyOldDetail oldProduct.type productId db))) := by
  unfold updateTypeChangeTx at h
  simp only [bind_eq_ok, stmt_eq_ok, query_eq_ok] at h
  obtain ⟨db1, h1, db2, ⟨-, rfl⟩, db3, h3, db4, h4, -, hq⟩ := h
  simp only [Prod.mk.injEq] at hq
  obtain ⟨rfl, rfl⟩ := hq
  have hd : db1 = destroyOldDetail oldProduct.type productId db := by
    unfold destroyOldDetail
    by_cases hB : oldProduct.type = "BOOK"
    · simp only [hB, if_true, stmt_eq_ok] at h1 ⊢
      exact h1.2.symm
    · by_cases hS : oldProduct.type = "STATIONERY"
      · rw [if_neg hB, if_pos hS, stmt_eq_ok] at h1
        rw [if_neg hB, if_pos hS]
        exact h1.2.symm
      · simp only [hB, hS, if_false, Except.ok.injEq] at h1 ⊢
        exact h1.symm
  subst hd
  refine ⟨db3, h4, rfl, ?_⟩
  by_cases hB : reqBody.type = "BOOK"
  · simp only [hB, if_true, bind_eq_ok, propsOf_eq_ok, stmt_eq_ok] at h3
    obtain ⟨b, hb, -, rfl⟩ := h3
    exact Or.inl ⟨hB, b, hb, rfl⟩
  · by_cases hS : reqBody.type = "STATIONERY"
    · rw [if_neg hB, if_pos hS] at h3
      simp only [bind_eq_ok, propsOf_eq_ok, stmt_eq_ok] at h3
      obtain ⟨s, hs, -, h3⟩ := h3
      exact Or.inr (Or.inl ⟨hS, s, hs, h3.symm⟩)
    · simp only [hB, hS, if_false, Except.ok.injEq] at h3
      exact Or.inr (Or.inr ⟨hB, hS, h3.symm⟩)

/-- The state a committed transaction of `deleteById` leaves. -/
theorem deleteByIdTx_ok {faults : Nat → Bool} {productId : Nat} {db db' : Db} {u : Unit}
    (h : deleteByIdTx faults productId db = Except.ok (u, db')) :
    db' = productDestroy productId (stationeryDetailDestroy productId
      (bookDetailDestroy productId (productImageDestroy productId db))) := by
  unfold deleteByIdTx at h
  simp only [bind_eq_ok, stmt_eq_ok] at h
  obtain ⟨db1, ⟨-, rfl⟩, db2, ⟨-, rfl⟩, db3, ⟨-, rfl⟩, db4, ⟨-, rfl⟩, h5⟩ := h
  split at h5
  · cases h5
  · simp only [Except.ok.injEq, Prod.mk.injEq] at h5
    exact h5.2.symm

theorem detailMatches_of_counts {db db' : Db} {type : String} {j : Nat}
    (hb : bookCount db' j = bookCount db j)
    (hs : stationeryCount db' j = stationeryCount db j)
    (h : detailMatches db type j) : detailMatches db' type j := by
  unfold detailMatches at h ⊢
  rw [hb, hs]
  exact h

theorem catalogInv_congr {db db' : Db} (hp : db'.products = db.products)
    (hb : db'.bookDetails = db.bookDetails)
    (hs : db'.stationeryDetails = db.stationeryDetails)
    (hn : db'.nextProductId = db.nextProductId) (h : catalogInv db) : catalogInv db' := by
  obtain ⟨h1, h2, h3, h4⟩ := h
  refine ⟨?_, ?_, ?_, ?_⟩
  · rw [hp, hn]; exact h1
  · intro j hj
    rw [bookCount_congr hb]
    exact h2 j (hn ▸ hj)
  · intro j hj
    rw [stationeryCount_congr hs]
    exact h3 j (hn ▸ hj)
  · intro p hp'
    rw [hp] at hp'
    exact detailMatches_of_counts (bookCount_congr hb _) (stationeryCount_congr hs _) (h4 p hp')

theorem createTx_inv {now : Nat} {faults : Nat → Bool} {reqBody : ReqBody} {url : String}
    {uploaded : List String} {db db' : Db} {v : ProductView}
    (ht : reqBody.type = "BOOK" ∨ reqBody.type = "STATIONERY")
    (h : createTx now faults reqBody url uploaded db = Except.ok (v, db'))
    (hinv : catalogInv db) : catalogInv db' := by
  obtain ⟨h1, h2, h3, h4⟩ := hinv
  obtain ⟨dbi, rfl, hcase⟩ := createTx_ok h
  rcases hcase with ⟨hB, b, -, rfl⟩ | ⟨hS, s, -, rfl⟩ | ⟨hB, hS, -⟩
  · refine ⟨?_, ?_, ?_, ?_⟩
    · intro p hp
      simp only [bookDetailCreate, productImageBulkCreate, productCreate, List.mem_append,
        List.mem_singleton] at hp ⊢
      rcases hp with hp | rfl
      · exact Nat.lt_succ_of_lt (h1 p hp)
      · simp [productRow]
    · intro j hj
      have hj' : db.nextProductId + 1 ≤ j := hj
      rw [bookCount_bookDetailCreate, bookCount_productImageBulkCreate, bookCount_productCreate,
        h2 j (by omega), if_neg (by omega)]
    · intro j hj
      have hj' : db.nextProductId + 1 ≤ j := hj
      rw [stationeryCount_bookDetailCreate, stationeryCount_productImageBulkCreate,
        stationeryCount_productCreate]
      exact h3 j (by omega)
    · intro p hp
      simp only [bookDetailCreate, productImageBulkCreate, productCreate, List.mem_append,
        List.mem_singleton] at hp
      rcases hp with hp | rfl
      · refine detailMatches_of_counts ?_ ?_ (h4 p hp)
        · rw [bookCount_bookDetailCreate, bookCount_productImageBulkCreate,
            bookCount_productCreate, if_neg (by have := h1 p hp; omega)]
          rfl
        · rfl
      · left
        refine ⟨hB, ?_, ?_⟩
        · rw [bookCount_bookDetailCreate, bookCount_productImageBulkCreate,
            bookCount_productCreate]
          simp [productRow, h2 db.nextProductId (le_refl _)]
        · rw [stationeryCount_bookDetailCreate, stationeryCount_productImageBulkCreate,
            stationeryCount_productCreate]
          exact h3 db.nextProductId (le_refl _)
  · refine ⟨?_, ?_, ?_, ?_⟩
    · intro p hp
      simp only [stationeryDetailCreate, productImageBulkCreate, productCreate, List.mem_append,
        List.mem_singleton] at hp ⊢
      rcases hp with hp | rfl
      · exact Nat.lt_succ_of_lt (h1 p hp)
      · simp [productRow]
    · intro j hj
      have hj' : db.nextProductId + 1 ≤ j := hj
      rw [bookCount_stationeryDetailCreate, bookCount_productImageBulkCreate,
        bookCount_productCreate]
      exact h2 j (by omega)
    · intro j hj
      have hj' : db.nextProductId + 1 ≤ j := hj
      rw [stationeryCount_stationeryDetailCreate, stationeryCount_productImageBulkCreate,
        stationeryCount_productCreate, h3 j (by omega), if_neg (by omega)]
    · intro p hp
      simp only [stationeryDetailCreate, productImageBulkCreate, productCreate, List.mem_append,
        List.mem_singleton] at hp
      rcases hp with hp | rfl
      · refine detailMatches_of_counts ?_ ?_ (h4 p hp)
        · rfl
        · rw [stationeryCount_stationeryDetailCreate, stationeryCount_productImageBulkCreate,
            stationeryCount_productCreate, if_neg (by have := h1 p hp; omega)]
          rfl
      · right
        refine ⟨hS, ?_, ?_⟩
        · rw [stationeryCount_stationeryDetailCreate, stationeryCount_productImageBulkCreate,
            stationeryCount_productCreate]
          simp [productRow, h3 db.nextProductId (le_refl _)]
        · rw [bookCount_stationeryDetailCreate, bookCount_productImageBulkCreate,
            bookCount_productCreate]
          exact h2 db.nextProductId (le_refl _)
  · rcases ht with ht | ht
    · exact absurd ht hB
    · exact absurd ht hS

theorem mem_productUpdate {db : Db} {productId now : Nat} {reqBody : ReqBody} {url : String}
    {q : Product} (h : q ∈ (productUpdate productId now reqBody url db).products) :
    ∃ p ∈ db.products, q.id = p.id ∧
      ((p.id = productId ∧ q.type = reqBody.type) ∨ (p.id ≠ productId ∧ q = p)) := by
  simp only [productUpdate, List.mem_map] at h
  obtain ⟨p, hp, rfl⟩ := h
  refine ⟨p, hp, ?_⟩
  by_cases hid : p.id = productId
  · simp [hid]
  · simp [hid]

theorem updateSameTypeTx_inv {now : Nat} {faults : Nat → Bool} {productId : Nat}
    {reqBody : ReqBody} {url : String} {uploaded : List String} {db db' : Db}
    {v : Option ProductView} {oldProduct : Product}
    (hold : findByPk db productId = some oldProduct)
    (hsame : reqBody.type = oldProduct.type)
    (h : updateSameTypeTx now faults productId reqBody url uploaded db = Except.ok (v, db'))
    (hinv : catalogInv db) : catalogInv db' := by
  obtain ⟨h1, h2, h3, h4⟩ := hinv
  obtain ⟨hmem, hid⟩ := findByPk_some hold
  obtain ⟨dbd, hstep, -, hcase⟩ := updateSameTypeTx_ok h
  obtain ⟨fp, fb, fs, fn, -⟩ := productImagesStep_frame hstep
  refine catalogInv_congr fp fb fs fn ?_
  have hb : ∀ j, bookCount dbd j = bookCount db j := by
    intro j
    rcases hcase with ⟨-, b, -, rfl⟩ | ⟨-, s, -, rfl⟩
    · rw [bookCount_bookDetailUpdate, bookCount_productUpdate]
    · rfl
  have hs : ∀ j, stationeryCount dbd j = stationeryCount db j := by
    intro j
    rcases hcase with ⟨-, b, -, rfl⟩ | ⟨-, s, -, rfl⟩
    · rfl
    · rw [stationeryCount_stationeryDetailUpdate, stationeryCount_productUpdate]
  have hp : dbd.products = (productUpdate productId now reqBody url db).products := by
    rcases hcase with ⟨-, b, -, rfl⟩ | ⟨-, s, -, rfl⟩ <;> rfl
  have hn : dbd.nextProductId = db.nextProductId := by
    rcases hcase with ⟨-, b, -, rfl⟩ | ⟨-, s, -, rfl⟩ <;> rfl
  refine ⟨?_, ?_, ?_, ?_⟩
  · intro q hq
    rw [hp] at hq
    obtain ⟨p, hpm, hqid, -⟩ := mem_productUpdate hq
    rw [hn, hqid]
    exact h1 p hpm
  · intro j hj
    rw [hb]
    exact h2 j (hn ▸ hj)
  · intro j hj
    rw [hs]
    exact h3 j (hn ▸ hj)
  · intro q hq
    rw [hp] at hq
    obtain ⟨p, hpm, hqid, hq'⟩ := mem_productUpdate hq
    rcases hq' with ⟨hpid, hqt⟩ | ⟨-, rfl⟩
    · have := h4 oldProduct hmem
      rw [hqid, hpid, hqt, hsame, ← hid]
      exact detailMatches_of_counts (hb _) (hs _) this
    · exact detailMatches_of_counts (hb _) (hs _) (h4 q hpm)

theorem updateTypeChangeTx_inv {now : Nat} {faults : Nat → Bool} {productId : Nat}
    {reqBody : ReqBody} {url : String} {uploaded : List String} {db db' : Db}
    {v : Option ProductView} {oldProduct : Product}
    (ht : reqBody.type = "BOOK" ∨ reqBody.type = "STATIONERY")
    (hold : findByPk db productId = some oldProduct)
    (hdiff : reqBody.type ≠ oldProduct.type)
    (h : updateTypeChangeTx now faults oldProduct productId reqBody url uploaded db
      = Except.ok (v, db'))
    (hinv : catalogInv db) : catalogInv db' := by
  obtain ⟨h1, h2, h3, h4⟩ := hinv
  obtain ⟨hmem, hid⟩ := findByPk_some hold
  obtain ⟨dbd, hstep, -, hcase⟩ := updateTypeChangeTx_ok h
  obtain ⟨fp, fb, fs, fn, -⟩ := productImagesStep_frame hstep
  refine catalogInv_congr fp fb fs fn ?_
  have hlt : productId < db.nextProductId := hid ▸ h1 oldProduct hmem
  have hp : dbd.products = (productUpdate productId now reqBody url db).products := by
    rcases hcase with ⟨-, b, -, rfl⟩ | ⟨-, s, -, rfl⟩ | ⟨-, -, rfl⟩ <;>
      (unfold destroyOldDetail; split_ifs <;> rfl)
  have hn : dbd.nextProductId = db.nextProductId := by
    rcases hcase with ⟨-, b, -, rfl⟩ | ⟨-, s, -, rfl⟩ | ⟨-, -, rfl⟩ <;>
      (unfold destroyOldDetail; split_ifs <;> rfl)
  have hold4 := h4 oldProduct hmem
  rw [hid] at hold4
  -- the counts after the detail of the old type is replaced by that of the new
  have hcounts : (∀ j, j ≠ productId →
        bookCount dbd j = bookCount db j ∧ stationeryCount dbd j = stationeryCount db j) ∧
      detailMatches dbd reqBody.type productId := by
    rcases hcase with ⟨hB, b, -, rfl⟩ | ⟨hS, s, -, rfl⟩ | ⟨hB, hS, -⟩
    · have hO : oldProduct.type = "STATIONERY" := by
        rcases hold4 with ⟨hO, -⟩ | ⟨hO, -⟩
        · exact absurd (hB.trans hO.symm) hdiff
        · exact hO
      have hOB : oldProduct.type ≠ "BOOK" := by rw [hO]; decide
      have hc : bookCount db productId = 0 := by
        rcases hold4 with ⟨hO', -⟩ | ⟨-, -, hc⟩
        · exact absurd hO' hOB
        · exact hc
      refine ⟨?_, ?_⟩
      · intro j hj
        simp only [destroyOldDetail, if_neg hOB, if_pos hO, bookCount_bookDetailCreate,
          bookCount_productUpdate, bookCount_stationeryDetailDestroy,
          stationeryCount_bookDetailCreate, stationeryCount_productUpdate,
          stationeryCount_stationeryDetailDestroy, if_neg hj, if_neg (Ne.symm hj)]
        simp
      · left
        refine ⟨hB, ?_, ?_⟩
        · simp only [destroyOldDetail, if_neg hOB, if_pos hO, bookCount_bookDetailCreate,
            bookCount_productUpdate, bookCount_stationeryDetailDestroy, hc]
          simp
        · simp only [destroyOldDetail, if_neg hOB, if_pos hO, stationeryCount_bookDetailCreate,
            stationeryCount_productUpdate, stationeryCount_stationeryDetailDestroy]
          simp
    · have hO : oldProduct.type = "BOOK" := by
        rcases hold4 with ⟨hO, -⟩ | ⟨hO, -⟩
        · exact hO
        · exact absurd (hS.trans hO.symm) hdiff
      have hc : stationeryCount db productId = 0 := by
        rcases hold4 with ⟨-, -, hc⟩ | ⟨hO', -⟩
        · exact hc
        · rw [hO] at hO'; exact absurd hO' (by decide)
      refine ⟨?_, ?_⟩
      · intro j hj
        simp only [destroyOldDetail, if_pos hO, bookCount_stationeryDetailCreate,
          bookCount_productUpdate, bookCount_bookDetailDestroy,
          stationeryCount_stationeryDetailCreate, stationeryCount_productUpdate,
          stationeryCount_bookDetailDestroy, if_neg hj, if_neg (Ne.symm hj)]
        simp
      · right
        refine ⟨hS, ?_, ?_⟩
        · simp only [destroyOldDetail, if_pos hO, stationeryCount_stationeryDetailCreate,
            stationeryCount_productUpdate, stationeryCount_bookDetailDestroy, hc]
          simp
        · simp only [destroyOldDetail, if_pos hO, bookCount_stationeryDetailCreate,
            bookCount_productUpdate, bookCount_bookDetailDestroy]
          simp
    · rcases ht with ht | ht
      · exact absurd ht hB
      · exact absurd ht hS
  obtain ⟨hother, hthis⟩ := hcounts
  refine ⟨?_, ?_, ?_, ?_⟩
  · intro q hq
    rw [hp] at hq
    obtain ⟨p, hpm, hqid, -⟩ := mem_productUpdate hq
    rw [hn, hqid]
    exact h1 p hpm
  · intro j hj
    rw [hn] at hj
    rw [(hother j (by omega)).1]
    exact h2 j hj
  · intro j hj
    rw [hn] at hj
    rw [(hother j (by omega)).2]
    exact h3 j hj
  · intro q hq
    rw [hp] at hq
    obtain ⟨p, hpm, hqid, hq'⟩ := mem_productUpdate hq
    rcases hq' with ⟨hpid, hqt⟩ | ⟨hne, rfl⟩
    · rw [hqid, hpid, hqt]
      exact hthis
    · exact detailMatches_of_counts (hother _ hne).1 (hother _ hne).2 (h4 q hpm)

theorem deleteByIdTx_inv {faults : Nat → Bool} {productId : Nat} {db db' : Db} {u : Unit}
    (h : deleteByIdTx faults productId db = Except.ok (u, db'))
    (hinv : catalogInv db) : catalogInv db' := by
  obtain ⟨h1, h2, h3, h4⟩ := hinv
  have hdb := deleteByIdTx_ok h
  subst hdb
  have hb : ∀ j, bookCount (productDestroy productId (stationeryDetailDestroy productId
      (bookDetailDestroy productId (productImageDestroy productId db)))) j
      = if j = productId then 0 else bookCount db j := by
    intro j
    rw [bookCount_productDestroy, bookCount_stationeryDetailDestroy,
      bookCount_bookDetailDestroy, bookCount_productImageDestroy]
  have hs : ∀ j, stationeryCount (productDestroy productId (stationeryDetailDestroy productId
      (bookDetailDestroy productId (productImageDestroy productId db)))) j
      = if j = productId then 0 else stationeryCount db j := by
    intro j
    rw [stationeryCount_productDestroy, stationeryCount_stationeryDetailDestroy,
      stationeryCount_bookDetailDestroy, stationeryCount_productImageDestroy]
  refine ⟨?_, ?_, ?_, ?_⟩
  · intro p hp
    simp only [productDestroy, stationeryDetailDestroy, bookDetailDestroy, productImageDestroy,
      List.mem_filter] at hp
    exact h1 p hp.1
  · intro j hj
    rw [hb]
    split_ifs
    · rfl
    · exact h2 j hj
  · intro j hj
    rw [hs]
    split_ifs
    · rfl
    · exact h3 j hj
  · intro p hp
    simp only [productDestroy, stationeryDetailDestroy, bookDetailDestroy, productImageDestroy,
      List.mem_filter] at hp
    obtain ⟨hpm, hne⟩ := hp
    have hne' : p.id ≠ productId := by simpa using hne
    refine detailMatches_of_counts ?_ ?_ (h4 p hpm)
    · rw [hb, if_neg hne']
    · rw [hs, if_neg hne']

/-! ## Lemmas on the calls -/

theorem uploadEach_db (cdn : String → UploadFile → String) (files : List UploadFile)
    (w : World) : (uploadEach cdn files w).2.db = w.db := by
  induction files generalizing w with
  | nil => rfl
  | cons file files ih =>
    simp only [uploadEach]
    rw [ih]
    rfl

theorem uploadProductImages_db (cdn : String → UploadFile → String)
    (files : Option (List UploadFile)) (w : World) :
    (uploadProductImages cdn files w).2.db = w.db := by
  unfold uploadProductImages
  split
  · exact uploadEach_db cdn _ w
  · rfl

/-- A transaction either commits the state its callback returns, or throws the
error of its callback and leaves the state as it was. -/
theorem transaction_cases {α : Type} (body : Db → Except Err (α × Db)) (w : World) :
    (∃ a db', body w.db = Except.ok (a, db') ∧
      transaction body w = ({ w with db := db' }, Except.ok a)) ∨
    (∃ e, body w.db = Except.error e ∧ transaction body w = (w, Except.error e)) := by
  unfold transaction
  cases h : body w.db with
  | error e => exact Or.inr ⟨e, rfl, rfl⟩
  | ok r => exact Or.inl ⟨r.1, r.2, rfl, rfl⟩

theorem create_inv (js : JsRuntime) (sql : SqlText) (cdn : String → UploadFile → String)
    (now : Nat) (faults : Nat → Bool) (reqBody : ReqBody) (cover : Option UploadFile) (files : Option (List UploadFile))
    (w : World) (ht : reqBody.type = "BOOK" ∨ reqBody.type = "STATIONERY")
    (hinv : catalogInv w.db) :
    catalogInv (create js sql cdn now faults reqBody cover files w).1.db := by
  unfold create
  split
  · exact hinv
  · split
    · exact hinv
    · rename_i file
      simp only []
      have hdb : (uploadProductImages cdn files (uploadImage cdn "coverImages" file w).2).2.db
          = w.db := by
        rw [uploadProductImages_db]; rfl
      rcases transaction_cases (createTx now faults reqBody
          (uploadImage cdn "coverImages" file w).1
          (uploadProductImages cdn files (uploadImage cdn "coverImages" file w).2).1)
          (uploadProductImages cdn files (uploadImage cdn "coverImages" file w).2).2
        with ⟨a, db', hb, ht'⟩ | ⟨e, -, ht'⟩
      · rw [ht']
        rw [hdb] at hb
        exact createTx_inv ht hb hinv
      · rw [ht', hdb]
        exact hinv

theorem update_inv (cdn : String → UploadFile → String) (now : Nat) (faults : Nat → Bool)
    (productId : Nat) (reqBody : ReqBody) (cover : Option UploadFile)
    (files : Option (List UploadFile)) (w : World)
    (ht : reqBody.type = "BOOK" ∨ reqBody.type = "STATIONERY")
    (hinv : catalogInv w.db) :
    catalogInv (update cdn now faults productId reqBody cover files w).1.db := by
  unfold update
  split
  · exact hinv
  · rename_i oldProduct hold
    simp only []
    generalize hc : (match cover with
      | some file => uploadImage cdn "coverImages" file w
      | none => (oldProduct.coverImageUrl, w)) = c
    have hcdb : c.2.db = w.db := by
      subst hc
      cases cover <;> rfl
    have hdb : (uploadProductImages cdn files c.2).2.db = w.db := by
      rw [uploadProductImages_db, hcdb]
    split
    · rename_i hsame
      rcases transaction_cases (updateSameTypeTx now faults productId reqBody c.1
          (uploadProductImages cdn files c.2).1) (uploadProductImages cdn files c.2).2
        with ⟨a, db', hb, ht'⟩ | ⟨e, -, ht'⟩
      · rw [ht']
        rw [hdb] at hb
        exact updateSameTypeTx_inv hold hsame hb hinv
      · rw [ht', hdb]
        exact hinv
    · rename_i hdiff
      rcases transaction_cases (updateTypeChangeTx now faults oldProduct productId reqBody c.1
          (uploadProductImages cdn files c.2).1) (uploadProductImages cdn files c.2).2
        with ⟨a, db', hb, ht'⟩ | ⟨e, -, ht'⟩
      · rw [ht']
        rw [hdb] at hb
        exact updateTypeChangeTx_inv ht hold hdiff hb hinv
      · rw [ht', hdb]
        exact hinv

theorem deleteById_inv (faults : Nat → Bool) (productId : Nat) (w : World)
    (hinv : catalogInv w.db) : catalogInv (deleteById faults productId w).1.db := by
  unfold deleteById
  split
  · exact hinv
  · simp only []
    rcases transaction_cases (deleteByIdTx faults productId) w
      with ⟨a, db', hb, ht'⟩ | ⟨e, -, ht'⟩
    · rw [ht']
      exact deleteByIdTx_inv hb hinv
    · rw [ht']
      exact hinv

theorem reachable_catalogInv {js : JsRuntime} {sql : SqlText}
    {cdn : String → UploadFile → String} {w : World}
    (h : Reachable js sql cdn w) : catalogInv w.db := by
  induction h with
  | start w hw => exact catalogInv_of_empty hw
  | call w c _ ht ih =>
    cases c with
    | create now faults reqBody cover files =>
      exact create_inv js sql cdn now faults reqBody cover files w ht ih
    | update now faults productId reqBody cover files =>
      exact update_inv cdn now faults productId reqBody cover files w ht ih
    | deleteById faults productId => exact deleteById_inv faults productId w ih

/-! ## C1: the detail invariant -/

/-- C1: in every state reachable from an empty catalog by calls of `create`,
`update` and `deleteById` whose type is BOOK or STATIONERY, every product has
exactly one detail record and it matches the type of the product: a BOOK has one
`BookDetail` and no `StationeryDetail`, a STATIONERY has one `StationeryDetail`
and no `BookDetail`. -/
theorem reachable_detail_invariant (js : JsRuntime) (sql : SqlText)
    (cdn : String → UploadFile → String) (w : World) (h : Reachable js sql cdn w) :
    ∀ p ∈ w.db.products,
      (p.type = "BOOK" ∧ bookCount w.db p.id = 1 ∧ stationeryCount w.db p.id = 0) ∨
      (p.type = "STATIONERY" ∧ stationeryCount w.db p.id = 1 ∧ bookCount w.db p.id = 0) :=
  (reachable_catalogInv h).2.2.2

/-- C1 at the state reached by creating one book in the empty state. -/
theorem reachable_detail_invariant_witness :
    bookWorld.db.products.length = 1 ∧
    ∀ p ∈ bookWorld.db.products,
      (p.type = "BOOK" ∧ bookCount bookWorld.db p.id = 1 ∧
        stationeryCount bookWorld.db p.id = 0) ∨
      (p.type = "STATIONERY" ∧ stationeryCount bookWorld.db p.id = 1 ∧
        bookCount bookWorld.db p.id = 0) :=
  ⟨by decide,
   reachable_detail_invariant sampleJs sampleSql sampleCdn bookWorld
    (Reachable.call emptyWorld
      (Call.create 1 noFaults (sampleBody "BOOK") (some sampleCover) none)
      (Reachable.start emptyWorld ⟨rfl, rfl, rfl, rfl⟩) (Or.inl rfl))⟩

/-! ## C2, C3: update -/

theorem uploadEach_fst (cdn : String → UploadFile → String) (files : List UploadFile)
    (w : World) : (uploadEach cdn files w).1 = files.map (cdn "productImages") := by
  induction files generalizing w with
  | nil => rfl
  | cons file files ih =>
    simp only [uploadEach, List.map_cons]
    rw [ih]
    rfl

theorem uploadProductImages_fst (cdn : String → UploadFile → String)
    (files : Option (List UploadFile)) (w : World) :
    (uploadProductImages cdn files w).1 = (files.getD []).map (cdn "productImages") := by
  unfold uploadProductImages
  split
  · exact uploadEach_fst cdn _ w
  · rename_i hne
    cases files with
    | none => rfl
    | some l =>
      cases l with
      | nil => rfl
      | cons a l => exact absurd rfl (hne a l)

/-- A call of `update` that returns has committed the transaction of its
branch on the state before the call. -/
theorem update_ok {cdn : String → UploadFile → String} {now : Nat} {faults : Nat → Bool}
    {productId : Nat} {reqBody : ReqBody} {cover : Option UploadFile}
    {files : Option (List UploadFile)} {w : World} {oldProduct : Product}
    {v : Option ProductView}
    (hold : findByPk w.db productId = some oldProduct)
    (hok : (update cdn now faults productId reqBody cover files w).2 = Except.ok v) :
    ∃ url,
      (reqBody.type = oldProduct.type ∧
        updateSameTypeTx now faults productId reqBody url
          ((files.getD []).map (cdn "productImages")) w.db
          = Except.ok (v, (update cdn now faults productId reqBody cover files w).1.db)) ∨
      (reqBody.type ≠ oldProduct.type ∧
        updateTypeChangeTx now faults oldProduct productId reqBody url
          ((files.getD []).map (cdn "productImages")) w.db
          = Except.ok (v, (update cdn now faults productId reqBody cover files w).1.db)) := by
  unfold update at hok ⊢
  rw [hold] at hok ⊢
  simp only [] at hok ⊢
  generalize hc : (match cover with
    | some file => uploadImage cdn "coverImages" file w
    | none => (oldProduct.coverImageUrl, w)) = c at hok ⊢
  have hcdb : c.2.db = w.db := by
    subst hc
    cases cover <;> rfl
  have hdb : (uploadProductImages cdn files c.2).2.db = w.db := by
    rw [uploadProductImages_db, hcdb]
  have hfst := uploadProductImages_fst cdn files c.2
  refine ⟨c.1, ?_⟩
  by_cases hsame : reqBody.type = oldProduct.type
  · rw [if_pos hsame] at hok ⊢
    left
    refine ⟨hsame, ?_⟩
    rcases transaction_cases (updateSameTypeTx now faults productId reqBody c.1
        (uploadProductImages cdn files c.2).1) (uploadProductImages cdn files c.2).2
      with ⟨a, db', hb, ht⟩ | ⟨e, -, ht⟩
    · rw [ht] at hok ⊢
      simp only [Except.ok.injEq] at hok
      subst hok
      rw [hdb, hfst] at hb
      exact hb
    · rw [ht] at hok
      cases hok
  · rw [if_neg hsame] at hok ⊢
    right
    refine ⟨hsame, ?_⟩
    rcases transaction_cases (updateTypeChangeTx now faults oldProduct productId reqBody c.1
        (uploadProductImages cdn files c.2).1) (uploadProductImages cdn files c.2).2
      with ⟨a, db', hb, ht⟩ | ⟨e, -, ht⟩
    · rw [ht] at hok ⊢
      simp only [Except.ok.injEq] at hok
      subst hok
      rw [hdb, hfst] at hb
      exact hb
    · rw [ht] at hok
      cases hok

theorem filter_eq_nil_of_countP {α : Type} (l : List α) (p : α → Bool)
    (h : l.countP p = 0) : l.filter p = [] := by
  rw [List.countP_eq_length_filter] at h
  exact List.length_eq_zero.mp h

theorem findByPk_productUpdate (db : Db) (productId now : Nat) (reqBody : ReqBody)
    (url : String) (oldProduct : Product) (hold : findByPk db productId = some oldProduct) :
    ∃ q, findByPk (productUpdate productId now reqBody url db) productId = some q ∧
      q.type = reqBody.type := by
  unfold findByPk at hold ⊢
  simp only [productUpdate]
  generalize db.products = l at hold
  induction l with
  | nil => simp at hold
  | cons p l ih =>
    by_cases hp : p.id = productId
    · simp [List.find?, hp]
    · have hp' : (p.id == productId) = false := by simpa using hp
      simp only [List.find?, hp'] at hold
      simp only [List.map_cons, hp', Bool.false_eq_true, if_false, List.find?]
      exact ih hold

/-- C2: when a call of `update` returns for a stored product that has its one
matching detail, with a type (BOOK or STATIONERY) other than the stored one, the
product has the new type afterwards, no detail record of the old kind is left
for its id, and exactly one detail record of the new kind exists for it, each of
whose fields is the field of that name of `reqBody.bookDetail` (for BOOK) or of
`reqBody.stationeryDetail` (for STATIONERY). -/
theorem update_type_change (cdn : String → UploadFile → String) (now : Nat)
    (faults : Nat → Bool) (productId : Nat) (reqBody : ReqBody) (cover : Option UploadFile)
    (files : Option (List UploadFile)) (w : World) (oldProduct : Product)
    (v : Option ProductView)
    (hold : findByPk w.db productId = some oldProduct)
    (hinv : detailMatches w.db oldProduct.type productId)
    (hdiff : reqBody.type ≠ oldProduct.type)
    (hok : (update cdn now faults productId reqBody cover files w).2 = Except.ok v) :
    (∃ q, findByPk (update cdn now faults productId reqBody cover files w).1.db productId
        = some q ∧ q.type = reqBody.type) ∧
    (∀ q ∈ (update cdn now faults productId reqBody cover files w).1.db.products,
      q.id = productId → q.type = reqBody.type) ∧
    (reqBody.type = "BOOK" →
      stationeryCount (update cdn now faults productId reqBody cover files w).1.db productId = 0 ∧
      ∃ b d, reqBody.bookDetail = some b ∧
        (update cdn now faults productId reqBody cover files w).1.db.bookDetails.filter
          (fun d => d.productId == productId) = [d] ∧
        d.productId = productId ∧ d.bookGenreId = b.bookGenreId ∧ d.author = b.author ∧
        d.translator = b.translator ∧ d.language = b.language ∧
        d.publisher = b.publisher ∧ d.publishYear = b.publishYear ∧
        d.pageCount = b.pageCount) ∧
    (reqBody.type = "STATIONERY" →
      bookCount (update cdn now faults productId reqBody cover files w).1.db productId = 0 ∧
      ∃ s d, reqBody.stationeryDetail = some s ∧
        (update cdn now faults productId reqBody cover files w).1.db.stationeryDetails.filter
          (fun d => d.productId == productId) = [d] ∧
        d.productId = productId ∧ d.brand = s.brand ∧
        d.placeProduction = s.placeProduction ∧ d.color = s.color ∧
        d.material = s.material) := by
  obtain ⟨url, ⟨hsame, -⟩ | ⟨-, htx⟩⟩ := update_ok hold hok
  · exact absurd hsame hdiff
  generalize (update cdn now faults productId reqBody cover files w).1.db = db' at htx ⊢
  obtain ⟨dbd, hstep, -, hcase⟩ := updateTypeChangeTx_ok htx
  obtain ⟨fp, fb, fs, -⟩ := productImagesStep_frame hstep
  have hp : dbd.products = (productUpdate productId now reqBody url w.db).products := by
    rcases hcase with ⟨-, b, -, rfl⟩ | ⟨-, s, -, rfl⟩ | ⟨-, -, rfl⟩ <;>
      (unfold destroyOldDetail; split_ifs <;> rfl)
  have hfind : ∃ q, findByPk db' productId = some q ∧ q.type = reqBody.type := by
    obtain ⟨q, hq, hqt⟩ := findByPk_productUpdate w.db productId now reqBody url oldProduct hold
    refine ⟨q, ?_, hqt⟩
    unfold findByPk at hq ⊢
    rw [fp, hp]
    exact hq
  have hall : ∀ q ∈ db'.products, q.id = productId → q.type = reqBody.type := by
    intro q hq hqid
    rw [fp, hp] at hq
    obtain ⟨p, -, hqp, hq'⟩ := mem_productUpdate hq
    rcases hq' with ⟨-, hqt⟩ | ⟨hne, -⟩
    · exact hqt
    · exact absurd (hqp ▸ hqid) hne
  refine ⟨hfind, hall, ?_, ?_⟩
  · intro hB
    have hO : oldProduct.type = "STATIONERY" := by
      rcases hinv with ⟨hO, -⟩ | ⟨hO, -⟩
      · exact absurd (hB.trans hO.symm) hdiff
      · exact hO
    have hOB : oldProduct.type ≠ "BOOK" := by rw [hO]; decide
    have hc : bookCount w.db productId = 0 := by
      rcases hinv with ⟨hO', -⟩ | ⟨-, -, hc⟩
      · exact absurd hO' hOB
      · exact hc
    rcases hcase with ⟨-, b, hb, rfl⟩ | ⟨hS, -⟩ | ⟨hnB, -⟩
    · refine ⟨?_, b, bookDetailRow productId b, hb, ?_, rfl, rfl, rfl, rfl, rfl, rfl, rfl, rfl⟩
      · rw [stationeryCount_congr fs]
        simp only [destroyOldDetail, if_neg hOB, if_pos hO, stationeryCount_bookDetailCreate,
          stationeryCount_productUpdate, stationeryCount_stationeryDetailDestroy]
        simp
      · rw [fb]
        simp only [destroyOldDetail, if_neg hOB, if_pos hO, bookDetailCreate, productUpdate,
          stationeryDetailDestroy, List.filter_append]
        rw [filter_eq_nil_of_countP _ _ hc]
        simp [bookDetailRow]
    · rw [hB] at hS; exact absurd hS (by decide)
    · exact absurd hB hnB
  · intro hS
    have hO : oldProduct.type = "BOOK" := by
      rcases hinv with ⟨hO, -⟩ | ⟨hO, -⟩
      · exact hO
      · exact absurd (hS.trans hO.symm) hdiff
    have hc : stationeryCount w.db productId = 0 := by
      rcases hinv with ⟨-, -, hc⟩ | ⟨hO', -⟩
      · exact hc
      · rw [hO] at hO'; exact absurd hO' (by decide)
    rcases hcase with ⟨hB, -⟩ | ⟨-, s, hs, rfl⟩ | ⟨-, hnS, -⟩
    · rw [hS] at hB; exact absurd hB (by decide)
    · refine ⟨?_, s, stationeryDetailRow productId s, hs, ?_, rfl, rfl, rfl, rfl, rfl⟩
      · rw [bookCount_congr fb]
        simp only [destroyOldDetail, if_pos hO, bookCount_stationeryDetailCreate,
          bookCount_productUpdate, bookCount_bookDetailDestroy]
        simp
      · rw [fs]
        simp only [destroyOldDetail, if_pos hO, stationeryDetailCreate, productUpdate,
          bookDetailDestroy, List.filter_append]
        rw [filter_eq_nil_of_countP _ _ hc]
        simp [stationeryDetailRow]
    · exact absurd hS hnS

/-- C2 at the book of the sample state, turned into stationery. -/
theorem update_type_change_witness :
    (∃ q, findByPk (update sampleCdn 2 noFaults 1 (sampleBody "STATIONERY") none none
        bookWorld).1.db 1 = some q ∧ q.type = "STATIONERY") ∧
    bookCount (update sampleCdn 2 noFaults 1 (sampleBody "STATIONERY") none none
        bookWorld).1.db 1 = 0 ∧
    (update sampleCdn 2 noFaults 1 (sampleBody "STATIONERY") none none
        bookWorld).1.db.stationeryDetails.filter (fun d => d.productId == 1)
      = [{ productId := 1, brand := "B", placeProduction := "VN", color := "red",
           material := "paper" }] :=
  have h := update_type_change sampleCdn 2 noFaults 1 (sampleBody "STATIONERY") none none
    bookWorld (productRow 1 1 (sampleBody "BOOK") "coverImages/c.png")
    (findByPkFull (update sampleCdn 2 noFaults 1 (sampleBody "STATIONERY") none none
      bookWorld).1.db 1)
    (by decide) (by decide) (by decide) rfl
  ⟨h.1, (h.2.2.2 rfl).1, by decide⟩

/-- A call of `update` that throws leaves the database as it was. -/
theorem update_error_db {cdn : String → UploadFile → String} {now : Nat} {faults : Nat → Bool}
    {productId : Nat} {reqBody : ReqBody} {cover : Option UploadFile}
    {files : Option (List UploadFile)} {w : World} {e : Err}
    (herr : (update cdn now faults productId reqBody cover files w).2 = Except.error e) :
    (update cdn now faults productId reqBody cover files w).1.db = w.db := by
  cases hold : findByPk w.db productId with
  | none =>
    unfold update
    rw [hold]
  | some oldProduct =>
    unfold update at herr ⊢
    rw [hold] at herr ⊢
    simp only [] at herr ⊢
    generalize hc : (match cover with
      | some file => uploadImage cdn "coverImages" file w
      | none => (oldProduct.coverImageUrl, w)) = c at herr ⊢
    have hcdb : c.2.db = w.db := by
      subst hc
      cases cover <;> rfl
    have hdb : (uploadProductImages cdn files c.2).2.db = w.db := by
      rw [uploadProductImages_db, hcdb]
    by_cases hsame : reqBody.type = oldProduct.type
    · rw [if_pos hsame] at herr ⊢
      rcases transaction_cases (updateSameTypeTx now faults productId reqBody c.1
          (uploadProductImages cdn files c.2).1) (uploadProductImages cdn files c.2).2
        with ⟨a, db', -, ht⟩ | ⟨e', -, ht⟩
      · rw [ht] at herr
        cases herr
      · rw [ht]
        exact hdb
    · rw [if_neg hsame] at herr ⊢
      rcases transaction_cases (updateTypeChangeTx now faults oldProduct productId reqBody c.1
          (uploadProductImages cdn files c.2).1) (uploadProductImages cdn files c.2).2
        with ⟨a, db', -, ht⟩ | ⟨e', -, ht⟩
      · rw [ht] at herr
        cases herr
      · rw [ht]
        exact hdb

theorem except_error_iff_not_ok {α : Type} (x : Except Err α) :
    (∃ e, x = Except.error e) ↔ ¬ ∃ a, x = Except.ok a := by
  cases x <;> simp

theorem transaction_snd {α : Type} (body : Db → Except Err (α × Db)) (w : World) :
    (∃ e, (transaction body w).2 = Except.error e) ↔ ¬ ∃ r, body w.db = Except.ok r := by
  rcases transaction_cases body w with ⟨a, db', hb, ht⟩ | ⟨e, hb, ht⟩
  · rw [ht, hb]
    simp
  · rw [ht, hb]
    simp

/-- The image step of `update` goes through exactly when the database rejects
neither of the statements it runs. -/
theorem productImagesStep_isOk (faults : Nat → Bool) (k productId : Nat) (reqBody : ReqBody)
    (uploaded : List String) (db : Db) :
    (∃ db', productImagesStep faults k productId reqBody uploaded db = Except.ok db') ↔
      (replacesImages uploaded reqBody = true →
        ¬ faults k = true ∧
        ((allProductImages uploaded reqBody).length > 0 → ¬ faults (k + 1) = true)) := by
  unfold productImagesStep
  by_cases hg : replacesImages uploaded reqBody = true
  · rw [if_pos hg]
    constructor
    · rintro ⟨db', h⟩ -
      rw [bind_eq_ok] at h
      obtain ⟨db1, h1, h2⟩ := h
      rw [stmt_eq_ok] at h1
      refine ⟨by simp [h1.1], fun hlen => ?_⟩
      rw [if_pos hlen, stmt_eq_ok] at h2
      simp [h2.1]
    · intro h
      obtain ⟨h0, h1⟩ := h hg
      have h0' : faults k = false := by simpa using h0
      by_cases hlen : (allProductImages uploaded reqBody).length > 0
      · have h1' : faults (k + 1) = false := by simpa using h1 hlen
        refine ⟨productImageBulkCreate productId
          ((allProductImages uploaded reqBody).map some) (productImageDestroy productId db), ?_⟩
        rw [bind_eq_ok]
        refine ⟨productImageDestroy productId db, (stmt_eq_ok _ _ _ _).mpr ⟨h0', rfl⟩, ?_⟩
        rw [if_pos hlen, stmt_eq_ok]
        exact ⟨h1', rfl⟩
      · refine ⟨productImageDestroy productId db, ?_⟩
        rw [bind_eq_ok]
        refine ⟨productImageDestroy productId db, (stmt_eq_ok _ _ _ _).mpr ⟨h0', rfl⟩, ?_⟩
        rw [if_neg hlen]
  · rw [if_neg hg]
    exact ⟨fun _ h => absurd h hg, fun _ => ⟨db, rfl⟩⟩

/-- The transaction of `update` that keeps the type commits exactly when the
detail object of the type is given and the database rejects none of the
statements the callback runs. -/
theorem updateSameTypeTx_isOk (now : Nat) (faults : Nat → Bool) (productId : Nat)
    (reqBody : ReqBody) (url : String) (uploaded : List String) (db : Db) :
    (∃ r, updateSameTypeTx now faults productId reqBody url uploaded db = Except.ok r) ↔
      ¬ faults 0 = true ∧
      ¬ (reqBody.type = "BOOK" ∧ reqBody.bookDetail = none) ∧
      ¬ (reqBody.type ≠ "BOOK" ∧ reqBody.stationeryDetail = none) ∧
      ¬ faults 1 = true ∧
      (replacesImages uploaded reqBody = true →
        ¬ faults 2 = true ∧
        ((allProductImages uploaded reqBody).length > 0 → ¬ faults 3 = true)) ∧
      ¬ faults 4 = true := by
  unfold updateSameTypeTx
  simp only [bind_eq_ok, stmt_eq_ok, query_eq_ok]
  constructor
  · rintro ⟨r, db1, ⟨h0, -⟩, db2, h2, db3, h3, h4, -⟩
    have hstep := (productImagesStep_isOk faults 2 productId reqBody uploaded db2).mp ⟨db3, h3⟩
    refine ⟨by simp [h0], ?_, ?_, ?_, hstep, by simp [h4]⟩
    · rintro ⟨hB, hnone⟩
      simp [hB, hnone, bind_eq_ok, propsOf_eq_ok] at h2
    · rintro ⟨hB, hnone⟩
      simp [hB, hnone, bind_eq_ok, propsOf_eq_ok] at h2
    · by_cases hB : reqBody.type = "BOOK"
      · simp only [hB, if_true, bind_eq_ok, propsOf_eq_ok, stmt_eq_ok] at h2
        obtain ⟨b, -, h1, -⟩ := h2
        simp [h1]
      · simp only [hB, if_false, bind_eq_ok, propsOf_eq_ok, stmt_eq_ok] at h2
        obtain ⟨b, -, h1, -⟩ := h2
        simp [h1]
  · rintro ⟨h0, hb, hs, h1, hstep, h4⟩
    have h0' : faults 0 = false := by simpa using h0
    have h1' : faults 1 = false := by simpa using h1
    have h4' : faults 4 = false := by simpa using h4
    have hd : ∃ db2, (if reqBody.type = "BOOK" then
          propsOf reqBody.bookDetail >>= fun b =>
            stmt (faults 1) (bookDetailUpdate productId b)
              (productUpdate productId now reqBody url db)
        else
          propsOf reqBody.stationeryDetail >>= fun s =>
            stmt (faults 1) (stationeryDetailUpdate productId s)
              (productUpdate productId now reqBody url db)) = Except.ok db2 := by
      by_cases hB : reqBody.type = "BOOK"
      · cases hbd : reqBody.bookDetail with
        | none => exact absurd ⟨hB, hbd⟩ hb
        | some b =>
          refine ⟨bookDetailUpdate productId b (productUpdate productId now reqBody url db), ?_⟩
          simp [hB, propsOf, bind, Except.bind, stmt, h1']
      · cases hsd : reqBody.stationeryDetail with
        | none => exact absurd ⟨hB, hsd⟩ hs
        | some s =>
          refine ⟨stationeryDetailUpdate productId s
            (productUpdate productId now reqBody url db), ?_⟩
          simp [hB, propsOf, bind, Except.bind, stmt, h1']
    obtain ⟨db2, hd⟩ := hd
    obtain ⟨db3, h3⟩ := (productImagesStep_isOk faults 2 productId reqBody uploaded db2).mpr hstep
    exact ⟨_, _, ⟨h0', rfl⟩, db2, hd, db3, h3, h4', rfl⟩

/-- The transaction of `update` that changes the type commits exactly when the
detail object of the new type is given and the database rejects none of the
statements the callback runs. -/
theorem updateTypeChangeTx_isOk (now : Nat) (faults : Nat → Bool) (oldProduct : Product)
    (productId : Nat) (reqBody : ReqBody) (url : String) (uploaded : List String) (db : Db) :
    (∃ r, updateTypeChangeTx now faults oldProduct productId reqBody url uploaded db
        = Except.ok r) ↔
      ¬ ((oldProduct.type = "BOOK" ∨ oldProduct.type = "STATIONERY") ∧ faults 0 = true) ∧
      ¬ faults 1 = true ∧
      ¬ (reqBody.type = "BOOK" ∧ reqBody.bookDetail = none) ∧
      ¬ (reqBody.type = "STATIONERY" ∧ reqBody.stationeryDetail = none) ∧
      ¬ ((reqBody.type = "BOOK" ∨ reqBody.type = "STATIONERY") ∧ faults 2 = true) ∧
      (replacesImages uploaded reqBody = true →
        ¬ faults 3 = true ∧
        ((allProductImages uploaded reqBody).length > 0 → ¬ faults 4 = true)) ∧
      ¬ faults 5 = true := by
  unfold updateTypeChangeTx
  simp only [bind_eq_ok, stmt_eq_ok, query_eq_ok]
  have hSB : ("STATIONERY" : String) ≠ "BOOK" := by decide
  constructor
  · rintro ⟨r, db1, h1, db2, ⟨hf1, -⟩, db3, h3, db4, h4, hf5, -⟩
    have hstep := (productImagesStep_isOk faults 3 productId reqBody uploaded db3).mp ⟨db4, h4⟩
    refine ⟨?_, by simp [hf1], ?_, ?_, ?_, hstep, by simp [hf5]⟩
    · rintro ⟨hO | hO, hf0⟩
      · rw [if_pos hO, stmt_eq_ok] at h1
        rw [h1.1] at hf0
        cases hf0
      · rw [if_neg (by rw [hO]; exact hSB), if_pos hO, stmt_eq_ok] at h1
        rw [h1.1] at hf0
        cases hf0
    · rintro ⟨hB, hnone⟩
      simp [hB, hnone, bind_eq_ok, propsOf_eq_ok] at h3
    · rintro ⟨hS, hnone⟩
      rw [if_neg (by rw [hS]; exact hSB), if_pos hS] at h3
      simp [hnone, bind_eq_ok, propsOf_eq_ok] at h3
    · rintro ⟨hB | hS, hf2⟩
      · rw [if_pos hB] at h3
        simp only [bind_eq_ok, propsOf_eq_ok, stmt_eq_ok] at h3
        obtain ⟨b, -, h2, -⟩ := h3
        rw [h2] at hf2
        cases hf2
      · rw [if_neg (by rw [hS]; exact hSB), if_pos hS] at h3
        simp only [bind_eq_ok, propsOf_eq_ok, stmt_eq_ok] at h3
        obtain ⟨s, -, h2, -⟩ := h3
        rw [h2] at hf2
        cases hf2
  · rintro ⟨h0, h1, hb, hs, h2, hstep, h5⟩
    have h1' : faults 1 = false := by simpa using h1
    have h5' : faults 5 = false := by simpa using h5
    have hd1 : ∃ db1, (if oldProduct.type = "BOOK" then
          stmt (faults 0) (bookDetailDestroy productId) db
        else if oldProduct.type = "STATIONERY" then
          stmt (faults 0) (stationeryDetailDestroy productId) db
        else Except.ok db) = Except.ok db1 := by
      by_cases hO : oldProduct.type = "BOOK"
      · have h0' : faults 0 = false := by
          cases hf : faults 0 with
          | false => rfl
          | true => exact absurd ⟨Or.inl hO, hf⟩ h0
        exact ⟨_, by rw [if_pos hO, stmt_eq_ok]; exact ⟨h0', rfl⟩⟩
      · by_cases hO' : oldProduct.type = "STATIONERY"
        · have h0' : faults 0 = false := by
            cases hf : faults 0 with
            | false => rfl
            | true => exact absurd ⟨Or.inr hO', hf⟩ h0
          exact ⟨_, by rw [if_neg hO, if_pos hO', stmt_eq_ok]; exact ⟨h0', rfl⟩⟩
        · exact ⟨db, by rw [if_neg hO, if_neg hO']⟩
    obtain ⟨db1, hd1⟩ := hd1
    have hd3 : ∃ db3, (if reqBody.type = "BOOK" then
          propsOf reqBody.bookDetail >>= fun b =>
            stmt (faults 2) (bookDetailCreate productId b)
              (productUpdate productId now reqBody url db1)
        else if reqBody.type = "STATIONERY" then
          propsOf reqBody.stationeryDetail >>= fun s =>
            stmt (faults 2) (stationeryDetailCreate productId s)
              (productUpdate productId now reqBody url db1)
        else Except.ok (productUpdate productId now reqBody url db1)) = Except.ok db3 := by
      by_cases hB : reqBody.type = "BOOK"
      · have h2' : faults 2 = false := by
          cases hf : faults 2 with
          | false => rfl
          | true => exact absurd ⟨Or.inl hB, hf⟩ h2
        cases hbd : reqBody.bookDetail with
        | none => exact absurd ⟨hB, hbd⟩ hb
        | some b =>
          refine ⟨bookDetailCreate productId b
            (productUpdate productId now reqBody url db1), ?_⟩
          rw [if_pos hB]
          simp [propsOf, bind, Except.bind, stmt, h2']
      · by_cases hS : reqBody.type = "STATIONERY"
        · have h2' : faults 2 = false := by
            cases hf : faults 2 with
            | false => rfl
            | true => exact absurd ⟨Or.inr hS, hf⟩ h2
          cases hsd : reqBody.stationeryDetail with
          | none => exact absurd ⟨hS, hsd⟩ hs
          | some s =>
            refine ⟨stationeryDetailCreate productId s
              (productUpdate productId now reqBody url db1), ?_⟩
            rw [if_neg hB, if_pos hS]
            simp [propsOf, bind, Except.bind, stmt, h2']
        · exact ⟨_, by rw [if_neg hB, if_neg hS]⟩
    obtain ⟨db3, hd3⟩ := hd3
    obtain ⟨db4, h4⟩ := (productImagesStep_isOk faults 3 productId reqBody uploaded db3).mpr hstep
    exact ⟨_, db1, hd1, _, ⟨h1', rfl⟩, db3, hd3, db4, h4, h5', rfl⟩

/-- A call of `update` on a stored product throws exactly when the transaction
of its branch does not commit. -/
theorem update_fails_iff (cdn : String → UploadFile → String) (now : Nat) (faults : Nat → Bool)
    (productId : Nat) (reqBody : ReqBody) (cover : Option UploadFile)
    (files : Option (List UploadFile)) (w : World) (oldProduct : Product)
    (hold : findByPk w.db productId = some oldProduct) :
    ∃ url,
      ((∃ e, (update cdn now faults productId reqBody cover files w).2 = Except.error e) ↔
        ¬ ∃ r, (if reqBody.type = oldProduct.type then
            updateSameTypeTx now faults productId reqBody url
              ((files.getD []).map (cdn "productImages")) w.db
          else
            updateTypeChangeTx now faults oldProduct productId reqBody url
              ((files.getD []).map (cdn "productImages")) w.db) = Except.ok r) := by
  unfold update
  rw [hold]
  simp only []
  generalize hc : (match cover with
    | some file => uploadImage cdn "coverImages" file w
    | none => (oldProduct.coverImageUrl, w)) = c
  have hcdb : c.2.db = w.db := by
    subst hc
    cases cover <;> rfl
  have hdb : (uploadProductImages cdn files c.2).2.db = w.db := by
    rw [uploadProductImages_db, hcdb]
  have hfst := uploadProductImages_fst cdn files c.2
  refine ⟨c.1, ?_⟩
  by_cases hsame : reqBody.type = oldProduct.type
  · rw [if_pos hsame, if_pos hsame, transaction_snd, hdb, hfst]
  · rw [if_neg hsame, if_neg hsame, transaction_snd, hdb, hfst]

theorem some_step_fails_same (a b c d r n e f g : Prop) :
    ¬ (¬ a ∧ ¬ b ∧ ¬ c ∧ ¬ d ∧ (r → ¬ e ∧ (n → ¬ f)) ∧ ¬ g) ↔
      a ∨ b ∨ c ∨ d ∨ (r ∧ e) ∨ (r ∧ n ∧ f) ∨ g := by
  tauto

theorem some_step_fails_change (a b c d h r n e f g : Prop) :
    ¬ (¬ a ∧ ¬ b ∧ ¬ c ∧ ¬ d ∧ ¬ h ∧ (r → ¬ e ∧ (n → ¬ f)) ∧ ¬ g) ↔
      a ∨ b ∨ c ∨ d ∨ h ∨ (r ∧ e) ∨ (r ∧ n ∧ f) ∨ g := by
  tauto

/-- C3: `update` is all-or-nothing on the database.  A call that throws leaves
every table as it was before the call; and a call on a stored product throws
exactly when some step of its transaction fails: the database rejects a
statement the callback runs (the update of the product row, the update,
deletion or insertion of a detail, the deletion or the bulk insertion of the
images, the final read), or the detail object the callback reads is missing.
The statements are numbered in the order of the source, from 0, in each
branch. -/
theorem update_all_or_nothing (cdn : String → UploadFile → String) (now : Nat)
    (faults : Nat → Bool) (productId : Nat) (reqBody : ReqBody) (cover : Option UploadFile)
    (files : Option (List UploadFile)) (w : World) :
    (∀ e, (update cdn now faults productId reqBody cover files w).2 = Except.error e →
      (update cdn now faults productId reqBody cover files w).1.db = w.db) ∧
    (∀ oldProduct, findByPk w.db productId = some oldProduct →
      reqBody.type = oldProduct.type →
      ((∃ e, (update cdn now faults productId reqBody cover files w).2 = Except.error e) ↔
        faults 0 = true ∨
        (reqBody.type = "BOOK" ∧ reqBody.bookDetail = none) ∨
        (reqBody.type ≠ "BOOK" ∧ reqBody.stationeryDetail = none) ∨
        faults 1 = true ∨
        (replacesImages ((files.getD []).map (cdn "productImages")) reqBody = true ∧
          faults 2 = true) ∨
        (replacesImages ((files.getD []).map (cdn "productImages")) reqBody = true ∧
          (allProductImages ((files.getD []).map (cdn "productImages")) reqBody).length > 0 ∧
          faults 3 = true) ∨
        faults 4 = true)) ∧
    (∀ oldProduct, findByPk w.db productId = some oldProduct →
      reqBody.type ≠ oldProduct.type →
      ((∃ e, (update cdn now faults productId reqBody cover files w).2 = Except.error e) ↔
        ((oldProduct.type = "BOOK" ∨ oldProduct.type = "STATIONERY") ∧ faults 0 = true) ∨
        faults 1 = true ∨
        (reqBody.type = "BOOK" ∧ reqBody.bookDetail = none) ∨
        (reqBody.type = "STATIONERY" ∧ reqBody.stationeryDetail = none) ∨
        ((reqBody.type = "BOOK" ∨ reqBody.type = "STATIONERY") ∧ faults 2 = true) ∨
        (replacesImages ((files.getD []).map (cdn "productImages")) reqBody = true ∧
          faults 3 = true) ∨
        (replacesImages ((files.getD []).map (cdn "productImages")) reqBody = true ∧
          (allProductImages ((files.getD []).map (cdn "productImages")) reqBody).length > 0 ∧
          faults 4 = true) ∨
        faults 5 = true)) := by
  refine ⟨fun e herr => update_error_db herr, ?_, ?_⟩
  · intro oldProduct hold hsame
    obtain ⟨url, hiff⟩ := update_fails_iff cdn now faults productId reqBody cover files w
      oldProduct hold
    rw [if_pos hsame] at hiff
    have hok := updateSameTypeTx_isOk now faults productId reqBody url
      ((files.getD []).map (cdn "productImages")) w.db
    exact hiff.trans ((not_congr hok).trans (some_step_fails_same _ _ _ _ _ _ _ _ _))
  · intro oldProduct hold hdiff
    obtain ⟨url, hiff⟩ := update_fails_iff cdn now faults productId reqBody cover files w
      oldProduct hold
    rw [if_neg hdiff] at hiff
    have hok := updateTypeChangeTx_isOk now faults oldProduct productId reqBody url
      ((files.getD []).map (cdn "productImages")) w.db
    exact hiff.trans ((not_congr hok).trans (some_step_fails_change _ _ _ _ _ _ _ _ _ _))

/-- C3 at the sample states.  The stationery product is updated to BOOK without
a `bookDetail`: a step fails, the call throws a `TypeError`, and the database
is as before.  The book with a gallery is updated with a new image file on a
database that rejects the bulk insertion of the images, after the row, the
detail and the deletion of the old images went through: the call throws and the
database is as before. -/
theorem update_all_or_nothing_witness :
    ((∃ e, (update sampleCdn 2 noFaults 1 bookBodyWithoutDetail none none stationeryWorld).2
      = Except.error e) ∧
    (update sampleCdn 2 noFaults 1 bookBodyWithoutDetail none none stationeryWorld).2
      = Except.error Err.typeError ∧
    (update sampleCdn 2 noFaults 1 bookBodyWithoutDetail none none stationeryWorld).1.db
      = stationeryWorld.db) ∧
    ((∃ e, (update sampleCdn 2 rejectsStatement3 1 (sampleBody "BOOK") none
        (some [sampleImage]) galleryWorld).2 = Except.error e) ∧
    (update sampleCdn 2 rejectsStatement3 1 (sampleBody "BOOK") none (some [sampleImage])
        galleryWorld).2 = Except.error Err.dbError ∧
    (update sampleCdn 2 rejectsStatement3 1 (sampleBody "BOOK") none (some [sampleImage])
        galleryWorld).1.db = galleryWorld.db) :=
  ⟨⟨((update_all_or_nothing sampleCdn 2 noFaults 1 bookBodyWithoutDetail none none
      stationeryWorld).2.2 (productRow 1 1 (sampleBody "STATIONERY") "coverImages/c.png")
      (by decide) (by decide)).mpr (Or.inr (Or.inr (Or.inl ⟨rfl, rfl⟩))),
    rfl,
    (update_all_or_nothing sampleCdn 2 noFaults 1 bookBodyWithoutDetail none none
      stationeryWorld).1 Err.typeError rfl⟩,
   ⟨((update_all_or_nothing sampleCdn 2 rejectsStatement3 1 (sampleBody "BOOK") none
      (some [sampleImage]) galleryWorld).2.1
      (productRow 1 1 (sampleBody "BOOK") "coverImages/c.png") (by decide) (by decide)).mpr
      (Or.inr (Or.inr (Or.inr (Or.inr (Or.inr (Or.inl ⟨by decide, by decide, rfl⟩)))))),
    rfl,
    (update_all_or_nothing sampleCdn 2 rejectsStatement3 1 (sampleBody "BOOK") none
      (some [sampleImage]) galleryWorld).1 Err.dbError rfl⟩⟩

/-! ## C4: the images of an updated product -/

theorem imageRows_filter (productId k : Nat) (urls : List (Option String)) :
    (imageRows productId k urls).filter (fun i => i.productId == productId)
      = imageRows productId k urls := by
  induction urls generalizing k with
  | nil => rfl
  | cons u us ih => simp [imageRows, ih]

theorem imageRows_map_imageUrl (productId k : Nat) (urls : List (Option String)) :
    (imageRows productId k urls).map (fun i => i.imageUrl) = urls := by
  induction urls generalizing k with
  | nil => rfl
  | cons u us ih => simp [imageRows, ih]

theorem imageRows_id_ge (productId k : Nat) (urls : List (Option String)) :
    ∀ i ∈ imageRows productId k urls, k ≤ i.id := by
  induction urls generalizing k with
  | nil => simp [imageRows]
  | cons u us ih =>
    intro i hi
    simp only [imageRows, List.mem_cons] at hi
    rcases hi with rfl | hi
    · exact le_refl _
    · exact Nat.le_of_succ_le (ih (k + 1) i hi)

theorem imagesOf_destroy (db : Db) (productId : Nat) :
    (productImageDestroy productId db).productImages.filter
      (fun i => i.productId == productId) = [] := by
  simp [productImageDestroy, List.filter_filter]

/-- The images of the product after the image step of `update`: the merged list
under fresh keys when the guard holds, the images before otherwise. -/
theorem productImagesStep_images {faults : Nat → Bool} {k productId : Nat} {reqBody : ReqBody}
    {uploaded : List String} {db db' : Db}
    (h : productImagesStep faults k productId reqBody uploaded db = Except.ok db') :
    (replacesImages uploaded reqBody = true →
      imagesOf db' productId
        = imageRows productId db.nextImageId ((allProductImages uploaded reqBody).map some)) ∧
    (replacesImages uploaded reqBody = false → db' = db) := by
  unfold productImagesStep at h
  by_cases hg : replacesImages uploaded reqBody = true
  · rw [if_pos hg, bind_eq_ok] at h
    obtain ⟨db1, h1, h2⟩ := h
    rw [stmt_eq_ok] at h1
    obtain ⟨-, rfl⟩ := h1
    refine ⟨fun _ => ?_, fun hf => absurd hg (by simp [hf])⟩
    by_cases hlen : (allProductImages uploaded reqBody).length > 0
    · rw [if_pos hlen, stmt_eq_ok] at h2
      obtain ⟨-, rfl⟩ := h2
      unfold imagesOf
      simp only [productImageBulkCreate, List.filter_append]
      rw [imagesOf_destroy, imageRows_filter]
      rfl
    · rw [if_neg hlen] at h2
      cases h2
      have hnil : allProductImages uploaded reqBody = [] :=
        List.length_eq_zero.mp (by omega)
      unfold imagesOf
      rw [imagesOf_destroy, hnil]
      rfl
  · rw [if_neg hg] at h
    cases h
    exact ⟨fun ht => absurd ht hg, fun _ => rfl⟩

/-- The statements of `update` before the image step leave the product images
and their key counter as they were. -/
theorem update_detail_frame {cdn : String → UploadFile → String} {now : Nat}
    {faults : Nat → Bool} {productId : Nat} {reqBody : ReqBody} {cover : Option UploadFile}
    {files : Option (List UploadFile)} {w : World} {oldProduct : Product}
    {v : Option ProductView}
    (hold : findByPk w.db productId = some oldProduct)
    (hok : (update cdn now faults productId reqBody cover files w).2 = Except.ok v) :
    ∃ k dbd, productImagesStep faults k productId reqBody
        ((files.getD []).map (cdn "productImages")) dbd
        = Except.ok (update cdn now faults productId reqBody cover files w).1.db ∧
      dbd.productImages = w.db.productImages ∧ dbd.nextImageId = w.db.nextImageId := by
  obtain ⟨url, ⟨-, htx⟩ | ⟨-, htx⟩⟩ := update_ok hold hok
  · obtain ⟨dbd, hstep, -, hcase⟩ := updateSameTypeTx_ok htx
    refine ⟨2, dbd, hstep, ?_⟩
    rcases hcase with ⟨-, b, -, rfl⟩ | ⟨-, s, -, rfl⟩ <;> exact ⟨rfl, rfl⟩
  · obtain ⟨dbd, hstep, -, hcase⟩ := updateTypeChangeTx_ok htx
    refine ⟨3, dbd, hstep, ?_⟩
    rcases hcase with ⟨-, b, -, rfl⟩ | ⟨-, s, -, rfl⟩ | ⟨-, -, rfl⟩ <;>
      (unfold destroyOldDetail; split_ifs <;> exact ⟨rfl, rfl⟩)

/-- C4 as the code has it: a call of `update` that returns, and in which a file
is uploaded or `reqBody.productImages` is an array, leaves as the images of the
product exactly the images supplied (the URLs of the uploaded files, then the
non-empty URLs of `reqBody.productImages`), none of them a record that existed
before; a call that uploads no file and has no `reqBody.productImages` leaves
the images of the product as they were. -/
theorem update_replaces_images (cdn : String → UploadFile → String) (now : Nat)
    (faults : Nat → Bool) (productId : Nat) (reqBody : ReqBody) (cover : Option UploadFile)
    (files : Option (List UploadFile)) (w : World) (oldProduct : Product)
    (v : Option ProductView)
    (hold : findByPk w.db productId = some oldProduct)
    (hok : (update cdn now faults productId reqBody cover files w).2 = Except.ok v) :
    (files.getD [] ≠ [] ∨ reqBody.productImages ≠ none →
      (imagesOf (update cdn now faults productId reqBody cover files w).1.db productId).map
          (fun i => i.imageUrl) = (suppliedImages cdn reqBody files).map some ∧
      ((∀ i ∈ w.db.productImages, i.id < w.db.nextImageId) →
        ∀ i ∈ imagesOf (update cdn now faults productId reqBody cover files w).1.db productId,
          i ∉ w.db.productImages)) ∧
    (files.getD [] = [] → reqBody.productImages = none →
      imagesOf (update cdn now faults productId reqBody cover files w).1.db productId
        = imagesOf w.db productId) := by
  obtain ⟨k, dbd, hstep, hpi, hn⟩ := update_detail_frame hold hok
  generalize (update cdn now faults productId reqBody cover files w).1.db = db' at hstep ⊢
  obtain ⟨hyes, hno⟩ := productImagesStep_images hstep
  constructor
  · intro hsup
    have hg : replacesImages ((files.getD []).map (cdn "productImages")) reqBody = true := by
      unfold replacesImages
      rcases hsup with hf | hp
      · have : 0 < (files.getD []).length := List.length_pos.mpr hf
        simp [this]
      · cases hpi' : reqBody.productImages with
        | none => exact absurd hpi' hp
        | some l => simp
    have himg := hyes hg
    rw [hn] at himg
    constructor
    · rw [himg, imageRows_map_imageUrl]
      rfl
    · intro hkeys i hi hmem
      rw [himg] at hi
      have h1 := imageRows_id_ge _ _ _ i hi
      have h2 := hkeys i hmem
      omega
  · intro hf hp
    have hg : replacesImages ((files.getD []).map (cdn "productImages")) reqBody = false := by
      simp [replacesImages, allProductImages, bodyImageUrls, hf, hp]
    rw [hno hg]
    unfold imagesOf
    rw [hpi]

/-- C4 at the gallery of the sample state, replaced by one URL of the request
body. -/
theorem update_replaces_images_witness :
    (imagesOf (update sampleCdn 2 noFaults 1
        { sampleBody "BOOK" with productImages := some [ImageRef.str "u", ImageRef.str ""] }
        none none galleryWorld).1.db 1).map (fun i => i.imageUrl) = [some "u"] ∧
    ∀ i ∈ imagesOf (update sampleCdn 2 noFaults 1
        { sampleBody "BOOK" with productImages := some [ImageRef.str "u", ImageRef.str ""] }
        none none galleryWorld).1.db 1, i ∉ galleryWorld.db.productImages :=
  have h := (update_replaces_images sampleCdn 2 noFaults 1
    { sampleBody "BOOK" with productImages := some [ImageRef.str "u", ImageRef.str ""] }
    none none galleryWorld (productRow 1 1 (sampleBody "BOOK") "coverImages/c.png")
    (findByPkFull (update sampleCdn 2 noFaults 1
        { sampleBody "BOOK" with productImages := some [ImageRef.str "u", ImageRef.str ""] }
        none none galleryWorld).1.db 1)
    (by decide) rfl).1 (Or.inr (by decide))
  ⟨h.1, h.2 (by decide)⟩

/-- C4 as stated fails: a call of `update` that supplies no image returns and
the image the product had before is still its image, although the list of
supplied images is empty. -/
theorem update_replaces_images_counterexample :
    (update sampleCdn 2 noFaults 1 (sampleBody "BOOK") none none galleryWorld).2
      = Except.ok (findByPkFull
          (update sampleCdn 2 noFaults 1 (sampleBody "BOOK") none none galleryWorld).1.db 1) ∧
    suppliedImages sampleCdn (sampleBody "BOOK") none = [] ∧
    ¬ ((imagesOf (update sampleCdn 2 noFaults 1 (sampleBody "BOOK") none none
          galleryWorld).1.db 1).map (fun i => i.imageUrl)
        = (suppliedImages sampleCdn (sampleBody "BOOK") none).map some) ∧
    ¬ (∀ i ∈ imagesOf (update sampleCdn 2 noFaults 1 (sampleBody "BOOK") none none
          galleryWorld).1.db 1, i ∉ galleryWorld.db.productImages) :=
  ⟨rfl, by decide, by decide, by decide⟩

/-! ## C5: the price filter of the search -/

theorem specPriceBound_hasPrice {js : JsRuntime} {v : JsValue} {b : Option ℚ}
    (h : SpecPriceBound js v b) :
    hasPrice js v = b.isSome ∧ (∀ x, b = some x → parseFloat js v = some x) := by
  cases h <;> simp [hasPrice, isNaN, JsValue.toNumber, parseFloat, *]

/-- The literals of the price filter, given the bounds the two values stand
for. -/
theorem whereClause_opAnd {js : JsRuntime} {filters : Filters} {lo hi : Option ℚ}
    (hmin : SpecPriceBound js filters.minPrice lo)
    (hmax : SpecPriceBound js filters.maxPrice hi) :
    (whereClause js filters).opAnd
      = (match lo with
         | some x => [PriceLiteral.ge (some x)]
         | none => []) ++
        (match hi with
         | some y => [PriceLiteral.le (some y)]
         | none => []) := by
  obtain ⟨h1, p1⟩ := specPriceBound_hasPrice hmin
  obtain ⟨h2, p2⟩ := specPriceBound_hasPrice hmax
  cases lo <;> cases hi <;> simp_all [whereClause]

theorem whereClause_withoutPrice (js : JsRuntime) (filters : Filters) :
    whereClause js filters.withoutPrice
      = { whereClause js filters with opAnd := [] } := by
  simp [whereClause, Filters.withoutPrice, hasPrice]

/-- Where the two conversions agree, the search filters by the price after
discount.  When each of `minPrice` and `maxPrice` is a number, a nonempty string
that `Number` and `parseFloat` read as the same number, or a value that is not
given (undefined, null, the empty string, NaN, a string `Number` reads as NaN),
the query is accepted, and a product is selected if and only if it is selected
by the same filters without the price bounds and `price * (100 - discount) /
100` is at least the `minPrice` given and at most the `maxPrice` given; with
neither given the clause holds no price condition. -/
theorem search_price_filter (js : JsRuntime) (sql : SqlText) (filters : Filters) (db : Db)
    (p : Product)
    (lo hi : Option ℚ)
    (hmin : SpecPriceBound js filters.minPrice lo)
    (hmax : SpecPriceBound js filters.maxPrice hi) :
    ∃ rows rows0,
      matchedProducts js sql filters db = Except.ok rows ∧
      matchedProducts js sql filters.withoutPrice db = Except.ok rows0 ∧
      (p ∈ rows ↔ p ∈ rows0 ∧
        (∀ x, lo = some x → (p.price : ℚ) * (100 - (p.discount : ℚ)) / 100 ≥ x) ∧
        (∀ y, hi = some y → (p.price : ℚ) * (100 - (p.discount : ℚ)) / 100 ≤ y)) ∧
      (lo = none → hi = none → (whereClause js filters).opAnd = []) := by
  have hop := whereClause_opAnd hmin hmax
  have h0 := whereClause_withoutPrice js filters
  have hinc : bookDetailInclude filters.withoutPrice = bookDetailInclude filters := rfl
  unfold matchedProducts
  simp only [h0, hinc]
  cases lo <;> cases hi <;>
    simp only [List.nil_append, List.singleton_append, List.append_nil] at hop <;>
    simp [hop, WhereClause.holds, PriceLiteral.valid, PriceLiteral.holds, finalPrice] <;>
    tauto

/-- Every row the search returns is a product the query selected. -/
theorem search_data_matched (js : JsRuntime) (sql : SqlText)
    (DEFAULT_PAGE DEFAULT_ITEMS_PER_PAGE : Nat)
    (filters : Filters) (w : World) (r : SearchResult)
    (h : (searchAndFilterProducts js sql DEFAULT_PAGE DEFAULT_ITEMS_PER_PAGE filters w).2
      = Except.ok r) :
    ∃ rows, matchedProducts js sql filters w.db = Except.ok rows ∧
      ∀ row ∈ r.data, row.product ∈ rows := by
  unfold searchAndFilterProducts at h
  simp only [] at h
  cases hm : matchedProducts js sql filters w.db with
  | error e =>
    rw [hm] at h
    cases h
  | ok rows =>
    rw [hm] at h
    refine ⟨rows, rfl, ?_⟩
    simp only [] at h
    split at h
    · cases h
    · simp only [Except.ok.injEq] at h
      subst h
      intro row hrow
      simp only [List.mem_map] at hrow
      obtain ⟨p, hp, rfl⟩ := hrow
      have h1 := List.mem_of_mem_drop (List.mem_of_mem_take hp)
      exact (List.perm_insertionSort _ rows).mem_iff.mp h1

/-- The price filter at the sample state, with the minimal price given as the
string 50 and no maximal price. -/
theorem search_price_filter_witness :
    ∃ rows rows0,
      matchedProducts sampleJs sampleSql minPriceFilters bookWorld.db = Except.ok rows ∧
      matchedProducts sampleJs sampleSql minPriceFilters.withoutPrice bookWorld.db = Except.ok rows0 ∧
      (productRow 1 1 (sampleBody "BOOK") "coverImages/c.png" ∈ rows ↔
        productRow 1 1 (sampleBody "BOOK") "coverImages/c.png" ∈ rows0 ∧
        (∀ x, some (50 : ℚ) = some x →
          ((productRow 1 1 (sampleBody "BOOK") "coverImages/c.png").price : ℚ)
            * (100 - ((productRow 1 1 (sampleBody "BOOK") "coverImages/c.png").discount : ℚ))
            / 100 ≥ x) ∧
        (∀ y, (none : Option ℚ) = some y →
          ((productRow 1 1 (sampleBody "BOOK") "coverImages/c.png").price : ℚ)
            * (100 - ((productRow 1 1 (sampleBody "BOOK") "coverImages/c.png").discount : ℚ))
            / 100 ≤ y)) ∧
      ((some (50 : ℚ)) = none → (none : Option ℚ) = none →
        (whereClause sampleJs minPriceFilters).opAnd = []) :=
  search_price_filter sampleJs sampleSql minPriceFilters bookWorld.db
    (productRow 1 1 (sampleBody "BOOK") "coverImages/c.png") (some 50) none
    (SpecPriceBound.numericString "50" 50 (by decide) (by decide) (by decide))
    SpecPriceBound.undefined

/-- The guard of the price filter lets through every string `Number` reads as a
number, and the literal is written with `parseFloat`: when `parseFloat` reads
the string as NaN the database rejects the query and the search throws. -/
theorem search_price_guard_mismatch (js : JsRuntime) (sql : SqlText)
    (DEFAULT_PAGE DEFAULT_ITEMS_PER_PAGE : Nat) (filters : Filters) (w : World) (s : String)
    (x : ℚ) (hs : filters.minPrice = JsValue.str s) (hne : s ≠ "")
    (hnumber : js.number s = some x) (hparse : js.parseFloat s = none) :
    searchAndFilterProducts js sql DEFAULT_PAGE DEFAULT_ITEMS_PER_PAGE filters w
      = (w, Except.error Err.dbError) := by
  have hmin : hasPrice js filters.minPrice = true := by
    simp [hs, hasPrice, isNaN, JsValue.toNumber, hnumber, hne]
  have hpf : parseFloat js filters.minPrice = none := by
    simp [hs, parseFloat, hparse]
  have hm : matchedProducts js sql filters w.db = Except.error Err.dbError := by
    unfold matchedProducts
    by_cases hmax : hasPrice js filters.maxPrice = true
    · simp [whereClause, hmin, hmax, hpf, PriceLiteral.valid]
    · simp [whereClause, hmin, hmax, hpf, PriceLiteral.valid]
  unfold searchAndFilterProducts
  simp only [hm]

/-- C5 fails on the code at a minimal price that `Number` and `parseFloat` read
differently.  For the blank string the guard `hasMinPrice` holds (`Number` gives
0) and the literal reads `NaN` (`parseFloat` gives NaN): the search throws,
where the claim has either no price condition or the bound 0.  For the string
0x10 the guard holds (`Number` gives 16) and the literal is written with 0: the
product whose price after discount is 10 is selected, below the bound 16 of the
claim. -/
theorem search_price_failing_input :
    hasPrice quirkJs (JsValue.str " ") = true ∧
    parseFloat quirkJs (JsValue.str " ") = none ∧
    searchAndFilterProducts quirkJs sampleSql 1 10 (priceFilters (JsValue.str " ")) cheapWorld
      = (cheapWorld, Except.error Err.dbError) ∧
    (quirkJs.number "0x10" = some 16 ∧ parseFloat quirkJs (JsValue.str "0x10") = some 0) ∧
    (∃ rows, matchedProducts quirkJs sampleSql (priceFilters (JsValue.str "0x10")) cheapWorld.db
        = Except.ok rows ∧ cheapProduct ∈ rows) ∧
    (cheapProduct.price : ℚ) * (100 - (cheapProduct.discount : ℚ)) / 100 < 16 := by
  have hmem : cheapProduct ∈ cheapWorld.db.products := by decide
  have hop : (whereClause quirkJs (priceFilters (JsValue.str "0x10")))
      = { name := none, type := none, categoryId := none,
          opAnd := [PriceLiteral.ge (some 0)] } := by
    simp [whereClause, priceFilters, truthyString, truthyNumber, hasPrice, isNaN,
      JsValue.toNumber, parseFloat, quirkJs]
  have hinc : (bookDetailInclude (priceFilters (JsValue.str "0x10"))).required = false := by
    decide
  refine ⟨by decide, by decide, ?_, ⟨by decide, by decide⟩, ?_, ?_⟩
  · exact search_price_guard_mismatch quirkJs sampleSql 1 10 _ cheapWorld " " 0 rfl
      (by decide) (by decide) (by decide)
  · unfold matchedProducts
    simp only [hop, hinc]
    refine ⟨_, if_pos (by simp [PriceLiteral.valid]), ?_⟩
    rw [List.mem_filter]
    refine ⟨hmem, ?_⟩
    simp [WhereClause.holds, PriceLiteral.holds, finalPrice, cheapProduct, productRow,
      cheapBody]
  · norm_num [cheapProduct, productRow, cheapBody]
/-! ## C6, C7: the aggregates of getProductById -/

theorem coalesce_sqlSum (column : List Int) : coalesce (sqlSum column) 0 = column.sum := by
  cases column <;> rfl

/-- Under a primary key on the order id, an order item joins at most one order. -/
theorem join_one_order (orders : List Order) (q : Order → Bool) (k : Nat) (i : OrderItem)
    (hkey : (orders.map (fun o => o.id)).Nodup) :
    (orders.filter (fun o => o.id == k && q o)).map (fun _ => i)
      = if orders.any (fun o => o.id == k && q o) then [i] else [] := by
  induction orders with
  | nil => rfl
  | cons o os ih =>
    rw [List.map_cons, List.nodup_cons] at hkey
    obtain ⟨hnot, hnd⟩ := hkey
    by_cases ho : (o.id == k && q o) = true
    · have hk : o.id = k := by
        simp only [Bool.and_eq_true, beq_iff_eq] at ho
        exact ho.1
      have hnone : os.filter (fun o => o.id == k && q o) = [] := by
        rw [List.filter_eq_nil_iff]
        intro o' ho' hc
        simp only [Bool.and_eq_true, beq_iff_eq] at hc
        exact hnot (List.mem_map.mpr ⟨o', ho', by rw [hc.1, hk]⟩)
      simp [List.filter_cons, ho, hnone]
    · have ho' : (o.id == k && q o) = false := by simpa using ho
      simp only [List.filter_cons, ho', List.any_cons, Bool.false_or]
      exact ih hnd

theorem flatMap_filter_ite {α : Type} (l : List α) (c : α → Bool) :
    l.flatMap (fun a => if c a then [a] else []) = l.filter c := by
  induction l with
  | nil => rfl
  | cons a l ih =>
    by_cases h : c a = true
    · simp [List.flatMap_cons, List.filter_cons, h, ih]
    · have h' : c a = false := by simpa using h
      simp [List.flatMap_cons, List.filter_cons, h', ih]

/-- Under a primary key on the order id, the rows of the join are the order
items the specification names. -/
theorem salesRows_eq_spec (db : Db) (productId : Nat)
    (hkey : (db.orders.map (fun o => o.id)).Nodup) :
    salesRows db productId = specSoldItems db productId := by
  unfold salesRows specSoldItems
  have hq : ∀ o : Order, sqlNotIn o.status ["RETURNED"]
      = (match o.status with
         | some s => s != "RETURNED"
         | none => false) := by
    intro o
    cases o.status with
    | none => rfl
    | some s => by_cases h : s = "RETURNED" <;> simp [sqlNotIn, h, bne]
  have hjoin : ∀ i : OrderItem,
      (db.orders.filter (fun o => o.id == i.orderId && sqlNotIn o.status ["RETURNED"])).map
        (fun _ => i)
      = if db.orders.any (fun o => o.id == i.orderId &&
          (match o.status with
           | some s => s != "RETURNED"
           | none => false)) then [i] else [] := by
    intro i
    rw [join_one_order db.orders (fun o => sqlNotIn o.status ["RETURNED"]) i.orderId i hkey]
    simp only [hq]
  simp only [hjoin]
  rw [flatMap_filter_ite, List.filter_filter]
  congr 1
  funext i
  simp [Bool.and_comm]

/-- C6: for a stored product, and order ids that are a primary key,
`getProductById` returns `totalSold` equal to the sum of `quantity` over the
order items of the product whose order exists and has a status other than
RETURNED, and 0 when there is no such order item. -/
theorem getProductById_totalSold (represent : ℚ → ℚ) (productId : Nat) (w : World)
    (product : Product)
    (hfind : findByPk w.db productId = some product)
    (hkey : (w.db.orders.map (fun o => o.id)).Nodup) :
    ∃ r, (getProductById represent productId w).2 = Except.ok (some r) ∧
      r.totalSold = ((specSoldItems w.db productId).map (fun i => i.quantity)).sum ∧
      (specSoldItems w.db productId = [] → r.totalSold = 0) := by
  unfold getProductById
  rw [hfind]
  refine ⟨_, rfl, ?_, ?_⟩
  · simp only [salesStats, coalesce_sqlSum]
    rw [salesRows_eq_spec w.db productId hkey]
  · intro hnil
    simp only [salesStats, coalesce_sqlSum]
    rw [salesRows_eq_spec w.db productId hkey, hnil]
    rfl

/-- C6 at the sample state: of the order items of the book, those on the
delivered order count, 2 + 4. -/
theorem getProductById_totalSold_witness :
    (∃ r, (getProductById exactAverage 1 salesWorld).2 = Except.ok (some r) ∧
      r.totalSold = ((specSoldItems salesWorld.db 1).map (fun i => i.quantity)).sum ∧
      (specSoldItems salesWorld.db 1 = [] → r.totalSold = 0)) ∧
    ((specSoldItems salesWorld.db 1).map (fun i => i.quantity)).sum = 6 :=
  ⟨getProductById_totalSold exactAverage 1 salesWorld (productRow 1 1 (sampleBody "BOOK") "coverImages/c.png")
    (by decide) (by decide), by decide⟩


theorem coalesce_sqlAvg_nil (represent : ℚ → ℚ) : coalesce (sqlAvg represent []) 0 = 0 := rfl

theorem coalesce_sqlAvg_ne_nil (represent : ℚ → ℚ) (column : List Int) (h : column ≠ []) :
    coalesce (sqlAvg represent column) 0
      = represent ((column.sum : ℚ) / (column.length : ℚ)) := by
  cases column with
  | nil => exact absurd rfl h
  | cons a l => rfl

/-- The exact part of what `getProductById` returns of the reviews: for a stored
product it returns the fields of the product as stored, `totalReviews` equal to
the number of reviews of the product, both aggregates 0 when the product has no
review, and otherwise as `avgRating` the number the database and `parseFloat`
give for the arithmetic mean of the ratings (which is not the mean itself: a
double, and on the way a decimal the database has rounded). -/
theorem getProductById_reviews (represent : ℚ → ℚ) (productId : Nat) (w : World)
    (product : Product) (hfind : findByPk w.db productId = some product) :
    ∃ r, (getProductById represent productId w).2 = Except.ok (some r) ∧
      r.product = product ∧
      r.totalReviews = (reviewsOf w.db productId).length ∧
      (reviewsOf w.db productId = [] → r.avgRating = 0 ∧ r.totalReviews = 0) ∧
      (reviewsOf w.db productId ≠ [] →
        r.avgRating = represent
          ((((reviewsOf w.db productId).map (fun r => r.rating)).sum : ℚ)
            / ((reviewsOf w.db productId).length : ℚ))) := by
  have hrows : w.db.reviews.filter (fun r => r.productId == productId || r.productId == productId)
      = reviewsOf w.db productId := by
    unfold reviewsOf
    congr 1
    funext r
    simp
  unfold getProductById
  rw [hfind]
  refine ⟨_, rfl, rfl, ?_, ?_, ?_⟩
  · simp only [reviewStats, hrows]
  · intro hnil
    simp only [reviewStats, hrows, hnil]
    exact ⟨rfl, rfl⟩
  · intro hne
    simp only [reviewStats, hrows]
    rw [coalesce_sqlAvg_ne_nil _ _ (by simpa using hne)]
    simp [Function.comp_def]

/-! ## C8: the rejections of create -/

theorem bind_eq_error {α β : Type} (x : Except Err α) (f : α → Except Err β) (e : Err) :
    (x >>= f) = Except.error e ↔
      x = Except.error e ∨ ∃ a, x = Except.ok a ∧ f a = Except.error e := by
  cases x <;> simp [bind, Except.bind]

theorem stmt_eq_error (fails : Bool) (effect : Db → Db) (db : Db) (e : Err) :
    stmt fails effect db = Except.error e ↔ fails = true ∧ e = Err.dbError := by
  unfold stmt; cases fails <;> simp [eq_comm]

theorem propsOf_map_eq_error {α : Type} (o : Option α) (e : Err) :
    (propsOf o).map some = Except.error e ↔ o = none ∧ e = Err.typeError := by
  cases o <;> simp [propsOf, Except.map, eq_comm]

/-- The transaction of `create` throws no `ApiError`. -/
theorem createTx_error {now : Nat} {faults : Nat → Bool} {reqBody : ReqBody} {url : String}
    {uploaded : List String} {db : Db} {e : Err}
    (h : createTx now faults reqBody url uploaded db = Except.error e) :
    e = Err.typeError ∨ e = Err.dbError := by
  unfold createTx at h
  simp only [bind_eq_error, stmt_eq_error] at h
  rcases h with h | ⟨bd, -, h⟩
  · split at h
    · rw [propsOf_map_eq_error] at h
      exact Or.inl h.2
    · cases h
  rcases h with h | ⟨sd, -, h⟩
  · split at h
    · rw [propsOf_map_eq_error] at h
      exact Or.inl h.2
    · cases h
  rcases h with h | ⟨db1, -, h⟩
  · exact Or.inr h.2
  rcases h with h | ⟨db2, -, h⟩
  · split at h
    · cases h
    · rw [stmt_eq_error] at h
      exact Or.inr h.2
  rcases h with h | ⟨db3, -, h⟩
  · split at h
    · rw [stmt_eq_error] at h
      exact Or.inr h.2
    · cases h
  rcases h with h | ⟨db4, -, h⟩
  · split at h
    · rw [stmt_eq_error] at h
      exact Or.inr h.2
    · cases h
  · cases h

theorem existProduct_isSome (js : JsRuntime) (sql : SqlText) (db : Db) (name : String) :
    (∃ p, existProduct js sql db name = some p) ↔
      ∃ p ∈ db.products, sql.equal (sql.lower p.name) (js.toLowerCase name) = true := by
  unfold existProduct
  constructor
  · rintro ⟨p, hp⟩
    exact ⟨p, List.mem_of_find?_eq_some hp, by simpa using List.find?_some hp⟩
  · rintro ⟨p, hp, hname⟩
    cases hfind : db.products.find?
        (fun p => sql.equal (sql.lower p.name) (js.toLowerCase name)) with
    | some q => exact ⟨q, rfl⟩
    | none =>
      rw [List.find?_eq_none] at hfind
      exact absurd hname (hfind p hp)

/-- C8: `create` rejects a request before it writes anything.  Let
`ignoringCase stored requested` say that two names are equal ignoring letter
case, and let the comparison of the query, `LOWER(name) =
reqBody.name.toLowerCase()`, hold of exactly such names.  Then `create` throws
the `ApiError` 409 if and only if some stored product has the name of the
request ignoring letter case, whether a cover file is given or not; otherwise it
throws the `ApiError` 422 when no cover file is given; and in both cases the
database and the image store are as before the call. -/
theorem create_rejects (js : JsRuntime) (sql : SqlText) (cdn : String → UploadFile → String)
    (now : Nat) (faults : Nat → Bool) (reqBody : ReqBody) (cover : Option UploadFile)
    (files : Option (List UploadFile)) (w : World) (ignoringCase : String → String → Prop)
    (hcase : ∀ stored requested,
      sql.equal (sql.lower stored) (js.toLowerCase requested) = true ↔
        ignoringCase stored requested) :
    ((create js sql cdn now faults reqBody cover files w).2
        = Except.error (Err.api 409 "Sản phẩm đã tồn tại!") ↔
      ∃ p ∈ w.db.products, ignoringCase p.name reqBody.name) ∧
    ((¬ ∃ p ∈ w.db.products, ignoringCase p.name reqBody.name) → cover = none →
      (create js sql cdn now faults reqBody cover files w).2
        = Except.error (Err.api 422 "Cover image is required")) ∧
    ((∃ p ∈ w.db.products, ignoringCase p.name reqBody.name) ∨ cover = none →
      (create js sql cdn now faults reqBody cover files w).1 = w) := by
  have hex' : (∃ p, existProduct js sql w.db reqBody.name = some p) ↔
      ∃ p ∈ w.db.products, ignoringCase p.name reqBody.name := by
    rw [existProduct_isSome]
    constructor
    · rintro ⟨p, hp, h⟩
      exact ⟨p, hp, (hcase _ _).mp h⟩
    · rintro ⟨p, hp, h⟩
      exact ⟨p, hp, (hcase _ _).mpr h⟩
  rw [← hex']
  cases hex : existProduct js sql w.db reqBody.name with
  | some p =>
    unfold create
    rw [hex]
    exact ⟨⟨fun _ => ⟨p, rfl⟩, fun _ => rfl⟩, fun hn => absurd ⟨p, rfl⟩ hn, fun _ => rfl⟩
  | none =>
    have hno : ¬ ∃ p, (none : Option Product) = some p := by simp
    cases cover with
    | none =>
      unfold create
      rw [hex]
      refine ⟨⟨fun h => ?_, fun h => absurd h hno⟩, fun _ _ => rfl, fun _ => rfl⟩
      simp at h
    | some file =>
      refine ⟨⟨fun h => ?_, fun h => absurd h hno⟩, fun _ hc => (by cases hc), fun h => ?_⟩
      · exfalso
        unfold create at h
        rw [hex] at h
        simp only [] at h
        rcases transaction_cases (createTx now faults reqBody
            (uploadImage cdn "coverImages" file w).1
            (uploadProductImages cdn files (uploadImage cdn "coverImages" file w).2).1)
            (uploadProductImages cdn files (uploadImage cdn "coverImages" file w).2).2
          with ⟨a, db', -, ht⟩ | ⟨e, he, ht⟩
        · rw [ht] at h
          cases h
        · rw [ht] at h
          simp only [Except.error.injEq] at h
          subst h
          rcases createTx_error he with h' | h' <;> cases h'
      · rcases h with h | h
        · exact absurd h hno
        · cases h

theorem toLower_toLower (c : Char) : c.toLower.toLower = c.toLower := by
  have key : ∀ c : Char, ¬ (c.toNat ≥ 65 ∧ c.toNat ≤ 90) → c.toLower = c := by
    intro c h
    simp only [Char.toLower]
    rw [if_neg h]
  by_cases h : c.toNat ≥ 65 ∧ c.toNat ≤ 90
  · have hc : c.toLower = Char.ofNat (c.toNat + 32) := by
      simp only [Char.toLower]
      rw [if_pos h]
    rw [hc]
    apply key
    obtain ⟨h1, h2⟩ := h
    generalize c.toNat = n at *
    interval_cases n <;> decide
  · rw [key c h, key c h]

/-- The comparison of the name check, with the sample runtime and the sample
database, holds of exactly the names that are equal ignoring the case of the
letters A to Z. -/
theorem sample_name_comparison (stored requested : String) :
    sampleSql.equal (sampleSql.lower stored) (sampleJs.toLowerCase requested) = true ↔
      sameIgnoringAsciiCase stored requested := by
  have hmap : ∀ l : List Char, (l.map Char.toLower).map Char.toLower = l.map Char.toLower := by
    intro l
    rw [List.map_map]
    exact List.map_congr_left (fun c _ => toLower_toLower c)
  simp only [sampleSql, sampleJs, asciiLower, sameIgnoringAsciiCase, beq_iff_eq, hmap]
  exact ⟨fun h => congrArg String.data h, fun h => congrArg String.mk h⟩

/-- C8 at the sample state, where the runtime and the database lower-case the
letters A to Z: a second product named `n` after the stored `N` is rejected with
409 and nothing changes, although a cover file and an image are given; a product
named `m` is not rejected with 409. -/
theorem create_rejects_witness :
    (create sampleJs sampleSql sampleCdn 2 noFaults (sampleBodyNamed "n")
        (some sampleCover) (some [sampleImage]) bookWorld).2
      = Except.error (Err.api 409 "Sản phẩm đã tồn tại!") ∧
    (create sampleJs sampleSql sampleCdn 2 noFaults (sampleBodyNamed "n")
        (some sampleCover) (some [sampleImage]) bookWorld).1 = bookWorld ∧
    (create sampleJs sampleSql sampleCdn 2 noFaults (sampleBodyNamed "m")
        (some sampleCover) (some [sampleImage]) bookWorld).2
      ≠ Except.error (Err.api 409 "Sản phẩm đã tồn tại!") :=
  ⟨(create_rejects sampleJs sampleSql sampleCdn 2 noFaults (sampleBodyNamed "n")
      (some sampleCover) (some [sampleImage]) bookWorld sameIgnoringAsciiCase
      sample_name_comparison).1.mpr
      ⟨productRow 1 1 (sampleBody "BOOK") "coverImages/c.png", by decide,
        by unfold sameIgnoringAsciiCase; decide⟩,
   (create_rejects sampleJs sampleSql sampleCdn 2 noFaults (sampleBodyNamed "n")
      (some sampleCover) (some [sampleImage]) bookWorld sameIgnoringAsciiCase
      sample_name_comparison).2.2
      (Or.inl ⟨productRow 1 1 (sampleBody "BOOK") "coverImages/c.png", by decide,
        by unfold sameIgnoringAsciiCase; decide⟩),
   fun h => absurd
     ((create_rejects sampleJs sampleSql sampleCdn 2 noFaults (sampleBodyNamed "m")
      (some sampleCover) (some [sampleImage]) bookWorld sameIgnoringAsciiCase
      sample_name_comparison).1.mp h)
     (by unfold sameIgnoringAsciiCase; decide)⟩

/-! ## C9, C10: deleteById and the calls on a missing product -/

/-- The transaction of `deleteById` commits when the product is stored and the
database rejects none of its four statements. -/
theorem deleteByIdTx_commits {faults : Nat → Bool} {productId : Nat} {db : Db}
    {product : Product} (hfind : findByPk db productId = some product)
    (hfaults : ∀ k, k < 4 → faults k = false) :
    deleteByIdTx faults productId db = Except.ok ((), productDestroy productId
      (stationeryDetailDestroy productId (bookDetailDestroy productId
        (productImageDestroy productId db)))) := by
  obtain ⟨hmem, hid⟩ := findByPk_some hfind
  have hcount : productDestroyCount productId (stationeryDetailDestroy productId
      (bookDetailDestroy productId (productImageDestroy productId db))) ≠ 0 := by
    unfold productDestroyCount
    simp only [stationeryDetailDestroy, bookDetailDestroy, productImageDestroy]
    intro h0
    have := List.length_eq_zero.mp h0
    rw [List.filter_eq_nil_iff] at this
    exact this product hmem (by simpa using hid)
  unfold deleteByIdTx
  simp only [stmt, hfaults 0 (by omega), hfaults 1 (by omega), hfaults 2 (by omega),
    hfaults 3 (by omega), bind, Except.bind, Bool.false_eq_true, if_false, if_neg hcount]

theorem filter_other {α : Type} (l : List α) (key : α → Nat) (productId j : Nat)
    (hj : j ≠ productId) :
    (l.filter (fun a => !(key a == productId))).filter (fun a => key a == j)
      = l.filter (fun a => key a == j) := by
  rw [List.filter_filter]
  apply List.filter_congr
  intro x _
  by_cases hx : key x = j
  · simp [hx, hj]
  · simp [hx]

/-- C9: for a stored product, `deleteById` returns the product as it was before
the call when the database rejects none of its statements; and whenever it
returns, it returns that product and leaves a state in which no product has the
id and no `ProductImage`, `BookDetail` or `StationeryDetail` record refers to
it, while the records of every other product id are as before. -/
theorem deleteById_removes (faults : Nat → Bool) (productId : Nat) (w : World)
    (product : Product) (hfind : findByPk w.db productId = some product) :
    ((∀ k, k < 4 → faults k = false) →
      (deleteById faults productId w).2 = Except.ok product) ∧
    (∀ r, (deleteById faults productId w).2 = Except.ok r →
      r = product ∧
      (∀ p ∈ (deleteById faults productId w).1.db.products, p.id ≠ productId) ∧
      (∀ i ∈ (deleteById faults productId w).1.db.productImages, i.productId ≠ productId) ∧
      (∀ d ∈ (deleteById faults productId w).1.db.bookDetails, d.productId ≠ productId) ∧
      (∀ d ∈ (deleteById faults productId w).1.db.stationeryDetails,
        d.productId ≠ productId) ∧
      (∀ j, j ≠ productId →
        (deleteById faults productId w).1.db.products.filter (fun p => p.id == j)
          = w.db.products.filter (fun p => p.id == j) ∧
        (deleteById faults productId w).1.db.productImages.filter (fun i => i.productId == j)
          = w.db.productImages.filter (fun i => i.productId == j) ∧
        (deleteById faults productId w).1.db.bookDetails.filter (fun d => d.productId == j)
          = w.db.bookDetails.filter (fun d => d.productId == j) ∧
        (deleteById faults productId w).1.db.stationeryDetails.filter
            (fun d => d.productId == j)
          = w.db.stationeryDetails.filter (fun d => d.productId == j))) := by
  constructor
  · intro hfaults
    unfold deleteById
    rw [hfind]
    simp only [transaction, deleteByIdTx_commits hfind hfaults]
  · intro r hr
    unfold deleteById at hr ⊢
    rw [hfind] at hr ⊢
    simp only [] at hr ⊢
    rcases transaction_cases (deleteByIdTx faults productId) w
      with ⟨a, db', hb, ht⟩ | ⟨e, -, ht⟩
    · rw [ht] at hr ⊢
      simp only [Except.ok.injEq] at hr
      have hdb := deleteByIdTx_ok hb
      subst hdb
      refine ⟨hr.symm, ?_, ?_, ?_, ?_, ?_⟩
      · intro p hp
        simp only [productDestroy, List.mem_filter] at hp
        simpa using hp.2
      · intro i hi
        simp only [productDestroy, stationeryDetailDestroy, bookDetailDestroy,
          productImageDestroy, List.mem_filter] at hi
        simpa using hi.2
      · intro d hd
        simp only [productDestroy, stationeryDetailDestroy, bookDetailDestroy,
          productImageDestroy, List.mem_filter] at hd
        simpa using hd.2
      · intro d hd
        simp only [productDestroy, stationeryDetailDestroy, bookDetailDestroy,
          productImageDestroy, List.mem_filter] at hd
        simpa using hd.2
      · intro j hj
        exact ⟨filter_other _ (fun p : Product => p.id) productId j hj,
          filter_other _ (fun i : ProductImage => i.productId) productId j hj,
          filter_other _ (fun d : BookDetail => d.productId) productId j hj,
          filter_other _ (fun d : StationeryDetail => d.productId) productId j hj⟩
    · rw [ht] at hr
      cases hr

/-- C9 at the sample state with a gallery: the book is deleted, with its image
and its detail. -/
theorem deleteById_removes_witness :
    (deleteById noFaults 1 galleryWorld).2
      = Except.ok (productRow 1 1 (sampleBody "BOOK") "coverImages/c.png") ∧
    (deleteById noFaults 1 galleryWorld).1.db.products = [] ∧
    (deleteById noFaults 1 galleryWorld).1.db.productImages = [] :=
  ⟨(deleteById_removes noFaults 1 galleryWorld
      (productRow 1 1 (sampleBody "BOOK") "coverImages/c.png") (by decide)).1 (fun _ _ => rfl),
   by decide, by decide⟩

theorem findByPk_none {db : Db} {productId : Nat}
    (h : ∀ p ∈ db.products, p.id ≠ productId) : findByPk db productId = none := by
  unfold findByPk
  rw [List.find?_eq_none]
  intro p hp
  simpa using h p hp

/-- C10: for a product id that no stored product has, `getProductById` returns
null, and `update` and `deleteById` throw the `ApiError` 404; none of the three
changes the state, so `update` uploads no image. -/
theorem missing_product (represent : ℚ → ℚ) (cdn : String → UploadFile → String) (now : Nat)
    (faults : Nat → Bool)
    (productId : Nat) (reqBody : ReqBody) (cover : Option UploadFile)
    (files : Option (List UploadFile)) (w : World)
    (hmissing : ∀ p ∈ w.db.products, p.id ≠ productId) :
    getProductById represent productId w = (w, Except.ok none) ∧
    update cdn now faults productId reqBody cover files w
      = (w, Except.error (Err.api 404 "Không tìm thấy sản phẩm!")) ∧
    deleteById faults productId w
      = (w, Except.error (Err.api 404 "Không tìm thấy sản phẩm!")) := by
  have hnone := findByPk_none hmissing
  refine ⟨?_, ?_, ?_⟩
  · unfold getProductById
    rw [hnone]
  · unfold update
    rw [hnone]
  · unfold deleteById
    rw [hnone]

/-- C10 at the sample state, for the id 7 that no product has. -/
theorem missing_product_witness :
    getProductById exactAverage 7 bookWorld = (bookWorld, Except.ok none) ∧
    update sampleCdn 2 noFaults 7 (sampleBody "BOOK") (some sampleCover) (some [sampleImage])
        bookWorld
      = (bookWorld, Except.error (Err.api 404 "Không tìm thấy sản phẩm!")) ∧
    deleteById noFaults 7 bookWorld
      = (bookWorld, Except.error (Err.api 404 "Không tìm thấy sản phẩm!")) :=
  missing_product exactAverage sampleCdn 2 noFaults 7 (sampleBody "BOOK") (some sampleCover)
    (some [sampleImage]) bookWorld (by decide)

/-! ## C11: the filter on the book detail -/

theorem likeMatch_percent (same : Char → Char → Bool) (ps s : List Char) :
    likeMatch same ('%' :: ps) s = s.tails.any (fun t => likeMatch same ps t) := by
  cases ps <;> simp [likeMatch]

theorem likeMatch_percent_only (same : Char → Char → Bool) (s : List Char) :
    likeMatch same ['%'] s = true := by
  rw [likeMatch_percent, List.any_eq_true]
  exact ⟨[], (List.mem_tails _ _).mpr List.nil_suffix, rfl⟩

theorem likeMatch_literal_nil (same : Char → Char → Bool) (c : Char) (r : List Char)
    (h1 : c ≠ '%') (h2 : c ≠ '_') : likeMatch same (c :: r) [] = false := by
  cases r <;> simp [likeMatch, h1, h2]

theorem likeMatch_literal_cons (same : Char → Char → Bool) (c : Char) (r : List Char)
    (d : Char) (cs : List Char)
    (h1 : c ≠ '%') (h2 : c ≠ '_') (h3 : c ≠ Char.ofNat 92) (hr : r ≠ []) :
    likeMatch same (c :: r) (d :: cs) = (same d c && likeMatch same r cs) := by
  cases r with
  | nil => exact absurd rfl hr
  | cons q ps => simp [likeMatch, h1, h2, h3]

/-- A pattern of literal characters followed by `%` matches the values that
start with characters the collation takes as equal to them, one by one. -/
theorem likeMatch_literal_percent (same : Char → Char → Bool) (l : List Char)
    (hl : ∀ c ∈ l, c ≠ '%' ∧ c ≠ '_' ∧ c ≠ Char.ofNat 92) (s : List Char) :
    likeMatch same (l ++ ['%']) s = true ↔
      ∃ t, t <+: s ∧ List.Forall₂ (fun c p => same c p = true) t l := by
  induction l generalizing s with
  | nil =>
    simp only [List.nil_append, likeMatch_percent_only, true_iff]
    exact ⟨[], List.nil_prefix, List.Forall₂.nil⟩
  | cons c l ih =>
    obtain ⟨h1, h2, h3⟩ := hl c (List.mem_cons_self _ _)
    have hl' : ∀ c ∈ l, c ≠ '%' ∧ c ≠ '_' ∧ c ≠ Char.ofNat 92 :=
      fun c hc => hl c (List.mem_cons_of_mem _ hc)
    cases s with
    | nil =>
      rw [List.cons_append, likeMatch_literal_nil same c _ h1 h2]
      constructor
      · intro h
        cases h
      · rintro ⟨t, ht, hf⟩
        rw [List.prefix_nil] at ht
        subst ht
        cases hf
    | cons d cs =>
      rw [List.cons_append, likeMatch_literal_cons same c _ d cs h1 h2 h3 (by simp),
        Bool.and_eq_true, ih hl' cs]
      constructor
      · rintro ⟨hd, t, ht, hf⟩
        exact ⟨d :: t, List.cons_prefix_cons.mpr ⟨rfl, ht⟩, List.Forall₂.cons hd hf⟩
      · rintro ⟨t, ht, hf⟩
        cases hf with
        | cons hd hf =>
          rw [List.cons_prefix_cons] at ht
          obtain ⟨rfl, ht⟩ := ht
          exact ⟨hd, _, ht, hf⟩

/-- For a text without wildcard characters, `value LIKE '%text%'` holds exactly
when the value contains a run of characters that the collation takes as equal,
one by one, to the characters of the text. -/
theorem sqlLike_contains (sql : SqlText) (value text : String) (hfree : wildcardFree text) :
    sqlLike sql value ("%" ++ text ++ "%") = true ↔
      containsUnder sql.sameChar value text := by
  unfold sqlLike containsUnder
  have hpat : ("%" ++ text ++ "%").toList = '%' :: (text.toList ++ ['%']) := by
    simp [String.toList]
  rw [hpat, likeMatch_percent, List.any_eq_true]
  constructor
  · rintro ⟨u, hu, hm⟩
    obtain ⟨t, ht, hf⟩ := (likeMatch_literal_percent _ _ hfree u).mp hm
    exact ⟨t, List.infix_iff_prefix_suffix.mpr ⟨u, ht, (List.mem_tails _ _).mp hu⟩, hf⟩
  · rintro ⟨t, ht, hf⟩
    obtain ⟨u, hp, hs⟩ := List.infix_iff_prefix_suffix.mp ht
    exact ⟨u, (List.mem_tails _ _).mpr hs,
      (likeMatch_literal_percent _ _ hfree u).mpr ⟨t, hp, hf⟩⟩

theorem truthyNumber_some {n : Option Nat} {g : Nat} (h : truthyNumber n = some g) :
    n = some g ∧ g ≠ 0 := by
  unfold truthyNumber at h
  cases n with
  | none => cases h
  | some v =>
    by_cases hv : v = 0
    · simp [hv] at h
    · simp only [hv, if_false, Option.some.injEq] at h
      exact ⟨by rw [h], h ▸ hv⟩

theorem truthyString_some {s : Option String} {l : String} (h : truthyString s = some l) :
    s = some l ∧ l ≠ "" := by
  unfold truthyString at h
  cases s with
  | none => cases h
  | some v =>
    by_cases hv : v = ""
    · simp [hv] at h
    · simp only [hv, if_false, Option.some.injEq] at h
      exact ⟨by rw [h], h ▸ hv⟩

/-- When the filters give a genre or a language, a selected product joins a
`BookDetail` record under the include. -/
theorem matchedProducts_joins {js : JsRuntime} {sql : SqlText} {filters : Filters} {db : Db}
    {rows : List Product} {p : Product}
    (hgiven : (truthyNumber filters.bookGenreId).isSome = true ∨
      (truthyString filters.language).isSome = true)
    (hm : matchedProducts js sql filters db = Except.ok rows) (hp : p ∈ rows) :
    ∃ d ∈ db.bookDetails, (bookDetailInclude filters).joins sql p d = true := by
  have hreq : (bookDetailInclude filters).required = true := by
    unfold bookDetailInclude
    rcases hgiven with h | h <;> simp [h]
  unfold matchedProducts at hm
  simp only [] at hm
  split at hm
  · simp only [Except.ok.injEq] at hm
    subst hm
    simp only [List.mem_filter, hreq, Bool.not_true, Bool.false_or, Bool.and_eq_true,
      List.any_eq_true] at hp
    exact hp.2.2
  · cases hm

/-- What joining under the include says of a `BookDetail` record. -/
theorem joins_spec {sql : SqlText} {filters : Filters} {p : Product} {d : BookDetail}
    (hgiven : (truthyNumber filters.bookGenreId).isSome = true ∨
      (truthyString filters.language).isSome = true)
    (hj : (bookDetailInclude filters).joins sql p d = true) :
    d.productId = p.id ∧
    (∀ g, truthyNumber filters.bookGenreId = some g → d.bookGenreId = g) ∧
    (∀ l, truthyString filters.language = some l →
      sqlLike sql d.language ("%" ++ l ++ "%") = true) := by
  have hinc : bookDetailInclude filters =
      { required := true
        bookGenreId := truthyNumber filters.bookGenreId
        language := (truthyString filters.language).map
          (fun language => "%" ++ language ++ "%") } := by
    unfold bookDetailInclude
    rcases hgiven with h | h <;> simp [h]
  rw [hinc] at hj
  unfold BookDetailInclude.joins at hj
  simp only [Bool.and_eq_true, beq_iff_eq] at hj
  obtain ⟨⟨hid, hg⟩, hl⟩ := hj
  refine ⟨hid, ?_, ?_⟩
  · intro g hgl
    rw [hgl] at hg
    simpa using hg
  · intro l hll
    rw [hll] at hl
    simpa using hl

/-- Every row the search returns is the row loaded for a selected product. -/
theorem search_data_row (js : JsRuntime) (sql : SqlText)
    (DEFAULT_PAGE DEFAULT_ITEMS_PER_PAGE : Nat)
    (filters : Filters) (w : World) (r : SearchResult)
    (h : (searchAndFilterProducts js sql DEFAULT_PAGE DEFAULT_ITEMS_PER_PAGE filters w).2
      = Except.ok r) :
    ∃ rows, matchedProducts js sql filters w.db = Except.ok rows ∧
      ∀ row ∈ r.data, ∃ p ∈ rows, row = searchRow sql filters w.db p := by
  unfold searchAndFilterProducts at h
  simp only [] at h
  cases hm : matchedProducts js sql filters w.db with
  | error e =>
    rw [hm] at h
    cases h
  | ok rows =>
    rw [hm] at h
    refine ⟨rows, rfl, ?_⟩
    simp only [] at h
    split at h
    · cases h
    · simp only [Except.ok.injEq] at h
      subst h
      intro row hrow
      simp only [List.mem_map] at hrow
      obtain ⟨p, hp, rfl⟩ := hrow
      have h1 := List.mem_of_mem_drop (List.mem_of_mem_take hp)
      exact ⟨p, (List.perm_insertionSort _ rows).mem_iff.mp h1, rfl⟩

/-- C11 as the code has it: when a call of the search gives `bookGenreId` or
`language`, every returned product comes with a `BookDetail` record of its own
whose `bookGenreId` is the one given (when given) and whose `language` matches
the pattern `%language%` of the operator `LIKE` (when given).  For a language
without the characters `%`, `_` and backslash that means: the stored language
contains a run of characters which the collation of the database takes as
equal, one by one, to the characters of the given language (a collation may
ignore letter case, so this need not be the given language itself).  So a
product without a `BookDetail` is never returned.  When neither is given the
selection does not depend on the `BookDetail` records: it is the same with all
of them removed. -/
theorem search_book_filter (js : JsRuntime) (sql : SqlText)
    (DEFAULT_PAGE DEFAULT_ITEMS_PER_PAGE : Nat) (filters : Filters) (w : World) :
    (∀ r, (searchAndFilterProducts js sql DEFAULT_PAGE DEFAULT_ITEMS_PER_PAGE filters w).2
        = Except.ok r →
      (truthyNumber filters.bookGenreId).isSome = true ∨
        (truthyString filters.language).isSome = true →
      ∀ row ∈ r.data, ∃ d, row.bookDetail = some d ∧ d ∈ w.db.bookDetails ∧
        d.productId = row.product.id ∧
        (∀ g, truthyNumber filters.bookGenreId = some g → d.bookGenreId = g) ∧
        (∀ l, truthyString filters.language = some l →
          sqlLike sql d.language ("%" ++ l ++ "%") = true ∧
          (wildcardFree l → containsUnder sql.sameChar d.language l))) ∧
    (truthyNumber filters.bookGenreId = none → truthyString filters.language = none →
      matchedProducts js sql filters w.db
        = matchedProducts js sql filters { w.db with bookDetails := [] }) := by
  constructor
  · intro r hok hgiven row hrow
    obtain ⟨rows, hm, hrows⟩ := search_data_row js sql _ _ filters w r hok
    obtain ⟨p, hp, rfl⟩ := hrows row hrow
    obtain ⟨d0, hd0, hj0⟩ := matchedProducts_joins hgiven hm hp
    have hfind : ∃ d, w.db.bookDetails.find?
        (fun d => (bookDetailInclude filters).joins sql p d) = some d := by
      cases hf : w.db.bookDetails.find?
          (fun d => (bookDetailInclude filters).joins sql p d) with
      | some d => exact ⟨d, rfl⟩
      | none =>
        rw [List.find?_eq_none] at hf
        exact absurd hj0 (hf d0 hd0)
    obtain ⟨d, hd⟩ := hfind
    have hmem := List.mem_of_find?_eq_some hd
    have hj : (bookDetailInclude filters).joins sql p d = true := by
      simpa using List.find?_some hd
    obtain ⟨hid, hg, hl⟩ := joins_spec hgiven hj
    refine ⟨d, hd, hmem, hid, hg, ?_⟩
    intro l hll
    exact ⟨hl l hll, fun hfree => (sqlLike_contains sql d.language l hfree).mp (hl l hll)⟩
  · intro hg hl
    unfold matchedProducts
    simp [bookDetailInclude, hg, hl]

/-- C11 at the sample state, whose collation ignores the case of the letters A
to Z, for the language `V`: the book is returned with its detail, whose
language `vi` has the run `v`, equal to `V` under that collation. -/
theorem search_book_filter_witness :
    ∀ row ∈ [bookSearchRow (languageFilters "V")],
      ∃ d, row.bookDetail = some d ∧ d ∈ bookWorld.db.bookDetails ∧
        d.productId = row.product.id ∧
        (∀ g, truthyNumber (languageFilters "V").bookGenreId = some g → d.bookGenreId = g) ∧
        (∀ l, truthyString (languageFilters "V").language = some l →
          sqlLike sampleSql d.language ("%" ++ l ++ "%") = true ∧
          (wildcardFree l → containsUnder sampleSql.sameChar d.language l)) :=
  (search_book_filter sampleJs sampleSql 1 10 (languageFilters "V") bookWorld).1
    { data := [bookSearchRow (languageFilters "V")], count := 1 } rfl (Or.inr rfl)

/-- C11 as stated fails: for the language `_` the search returns the book of the
sample state, and no `BookDetail` record of that book has a language that
contains `_` (its language is `vi`, which the pattern `%_%` matches). -/
theorem search_book_filter_counterexample :
    (searchAndFilterProducts sampleJs sampleSql 1 10 (languageFilters "_") bookWorld).2
      = Except.ok { data := [bookSearchRow (languageFilters "_")], count := 1 } ∧
    (languageFilters "_").language = some "_" ∧
    ¬ ∃ d ∈ bookWorld.db.bookDetails,
        d.productId = (bookSearchRow (languageFilters "_")).product.id ∧
        "_".toList <:+: d.language.toList :=
  ⟨rfl, rfl, by decide⟩
/-! ## C12: the handlers of userController on a failing service -/

/-- C12 fails on the code: when the service call throws, `createNew` and `login`
call `next` with the error and `refreshToken` with a new `ApiError` 403, but
`verifyAccount` and `update` call `next` without an argument, so the failure is
not reported; none of the five sends a success response. -/
theorem userController_failure_handling (userService : userController.UserService)
    (pickUser : userController.LoginResult → String) (e : Err)
    (req : userController.Request) :
    userController.createNew { userService with register := fun _ => Except.error e } req
      = [userController.Action.next (some e)] ∧
    userController.login pickUser { userService with login := fun _ => Except.error e } req
      = [userController.Action.next (some e)] ∧
    userController.refreshToken
        { userService with refreshToken := fun _ => Except.error e } req
      = [userController.Action.next
          (some (Err.api 403 "Please Sign In! (Error from refresh Token)"))] ∧
    userController.verifyAccount
        { userService with verifyAccount := fun _ => Except.error e } req
      = [userController.Action.next none] ∧
    userController.update { userService with update := fun _ _ _ => Except.error e } req
      = [userController.Action.next none] ∧
    userController.specReportsFailure (userController.verifyAccount
        { userService with verifyAccount := fun _ => Except.error e } req) = false ∧
    userController.specReportsFailure (userController.update
        { userService with update := fun _ _ _ => Except.error e } req) = false := by
  refine ⟨rfl, rfl, rfl, rfl, ?_, rfl, ?_⟩
  · unfold userController.update
    cases req.jwtDecoded <;> rfl
  · unfold userController.update
    cases req.jwtDecoded <;> rfl

/-- The failing input of C12 evaluated: with a service that throws the
`ApiError` 404, `verifyAccount` and `update` call `next()` and report nothing. -/
theorem userController_failing_input :
    userController.verifyAccount userController.accountMissing userController.sampleRequest
      = [userController.Action.next none] ∧
    userController.update userController.accountMissing userController.sampleRequest
      = [userController.Action.next none] ∧
    userController.specReportsFailure (userController.verifyAccount
      userController.accountMissing userController.sampleRequest) = false :=
  ⟨rfl, rfl, rfl⟩


end HeyBook
